import Mathlib

/-!
Shallow embedding of the video-analysis orchestrator of this repository
(`backend/tasks/celery_tasks.py` together with the Comprehend wrappers of
`backend/services/aws_service.py` and the `Video` model of
`backend/models/video.py`), and proofs about it.

Conventions of the embedding:
* timestamps are natural numbers (seconds); `datetime.utcnow()` becomes an
  explicit `now : Nat` argument;
* the external AWS services are an explicit environment value: each re-check
  carries the poll answers the services would return on that re-check, and the
  Comprehend text operations are function fields of the environment;
* machine floats (label confidences, entity scores) are embedded as rationals;
* Python `list(set(xs))` iterates a set in an unspecified order; it is embedded
  as `List.dedup` (one concrete order).  Every property proved about it here is
  insensitive to which order the set iteration uses;
* fallible external calls are `Except String` / sum-shaped poll results.
-/

namespace VideoGallery

/-- The `status` column of the `Video` model: `pending`, `uploaded`,
`processing`, `completed`, `failed` (`backend/models/video.py` line 34). -/
inductive Status
  | pending
  | uploaded
  | processing
  | completed
  | failed
deriving DecidableEq, Repr

/-- One value of the labels mapping built by
`get_label_detection_results`: a confidence plus a list of timestamped
instances (`aws_service.py` lines 111-126).  Confidence is a float on a
0-100 scale in the source; embedded as a rational. -/
structure LabelData where
  confidence : Rat
  instances : List Nat
deriving DecidableEq, Repr

/-- The labels mapping `label_name -> label_data` of
`get_label_detection_results`, a Python dict embedded as an association list
in insertion order. -/
abbrev LabelMap := List (String × LabelData)

/-- One entry of `detect_entities`' return value (`aws_service.py`
lines 285-289). -/
structure Entity where
  text : String
  type : String
  score : Rat
deriving DecidableEq, Repr

/-- The value returned by `analyze_text_sentiment` (`aws_service.py`
lines 254-257); the numeric score breakdown is irrelevant to every claim and
is kept as the raw sentiment word. -/
structure Sentiment where
  sentiment : String
deriving DecidableEq, Repr

/-- The job-handle record stored by `process_video_task` into
`video.detected_objects` (`celery_tasks.py` lines 118-125): the three
Rekognition job ids keyed under `rekognition_jobs` plus the Transcribe job
name.  `none` models an absent key (`'label_detection' in rekognition_jobs`
tests key presence; `if transcribe_job:` tests dict truthiness). -/
structure PendingJobs where
  labelDetection : Option String
  faceDetection : Option String
  contentModeration : Option String
  transcribeJob : Option String
deriving DecidableEq, Repr

/-- The JSON column `detected_objects` is reused for two purposes: it
temporarily holds the pending-job handles while processing, and after the
merge it holds the labels mapping (`results.get('labels', {})`,
`celery_tasks.py` line 251); `empty` is `NULL` / `{}`. -/
inductive StoredObjects
  | empty
  | jobs (j : PendingJobs)
  | labelResults (l : LabelMap)
deriving DecidableEq, Repr

/-- The columns of the `Video` row that the orchestrator tasks read or
write (`backend/models/video.py`).  Faces and moderation labels pass
through the orchestrator opaquely and are kept as strings. -/
structure VideoRecord where
  status : Status
  errorMessage : Option String
  processingStartedAt : Option Nat
  processingCompletedAt : Option Nat
  detectedObjects : StoredObjects
  detectedFaces : List String
  moderationLabels : List String
  transcript : String
  sentimentAnalysis : Option Sentiment
  keyPhrases : List String
  entities : List Entity
  tags : List String
  categories : List String
deriving DecidableEq, Repr

/-- One `emit_status_update` call (`celery_tasks.py` lines 50-70): the status
string, the message, and the optional numeric progress percent. -/
structure Emission where
  status : String
  message : String
  progress : Option Nat
deriving DecidableEq, Repr

/-- Answer of `get_label_detection_results` (`aws_service.py` lines 104-138):
`completed` carries the structured labels mapping (SUCCEEDED case); any other
`JobStatus` string is returned bare; a `ClientError` is re-raised. -/
inductive LabelPoll
  | completed (labels : LabelMap)
  | otherStatus (s : String)
  | serviceError (msg : String)

/-- Raw answer of `get_face_detection` / `get_content_moderation` as used in
`analyze_video_task` (`celery_tasks.py` lines 188-215): a `JobStatus` string
with the payload list, or a raised exception. -/
inductive RekPoll
  | result (jobStatus : String) (payload : List String)
  | serviceError (msg : String)

/-- Answer of `get_transcription_results` (`aws_service.py` lines 214-243):
`completed` carries the transcript text; any other
`TranscriptionJobStatus` is returned bare; a `ClientError` is re-raised. -/
inductive TranscribePoll
  | completed (transcript : String)
  | otherStatus (s : String)
  | serviceError (msg : String)

/-- The external Comprehend service: what `detect_sentiment`,
`detect_key_phrases` and `detect_entities` would answer for a given input
text. -/
structure ComprehendEnv where
  sentimentOf : String → Sentiment
  keyPhrasesOf : String → List String
  entitiesOf : String → List Entity

/-- Everything the external world answers during one `analyze_video_task`
re-check, plus the wall-clock time of that re-check. -/
structure AnalyzeEnv where
  now : Nat
  labelPoll : LabelPoll
  facePoll : RekPoll
  moderationPoll : RekPoll
  transcribePoll : TranscribePoll
  comprehend : ComprehendEnv

/-- Python string slice `text[:n]` (by code points), as used by the
Comprehend wrappers (`aws_service.py` lines 250, 268, 282). -/
def pySlice (s : String) (n : Nat) : String :=
  String.mk (s.data.take n)

/-- Python `str.lower()`, applied per character. -/
def pyLower (s : String) : String :=
  String.mk (s.data.map Char.toLower)

/-- `AWSService.analyze_text_sentiment` (`aws_service.py` lines 246-261):
truncates the text to its first 5000 characters and sends that to the
external Comprehend `detect_sentiment` call.  Returns the text actually
sent together with the answer, so the external call is observable. -/
def analyze_text_sentiment (c : ComprehendEnv) (text : String) : String × Sentiment :=
  (pySlice text 5000, c.sentimentOf (pySlice text 5000))

/-- `AWSService.extract_key_phrases` (`aws_service.py` lines 263-275). -/
def extract_key_phrases (c : ComprehendEnv) (text : String) : String × List String :=
  (pySlice text 5000, c.keyPhrasesOf (pySlice text 5000))

/-- `AWSService.detect_entities` (`aws_service.py` lines 277-293). -/
def detect_entities (c : ComprehendEnv) (text : String) : String × List Entity :=
  (pySlice text 5000, c.entitiesOf (pySlice text 5000))

/-- `jobs = video.detected_objects or {}` followed by
`jobs.get('rekognition_jobs', {})` / `jobs.get('transcribe_job', {})`
(`celery_tasks.py` lines 169-171): only a stored job-handle record yields
handles; `NULL`, `{}` or a stored labels mapping yields none. -/
def jobsOf : StoredObjects → PendingJobs
  | StoredObjects.jobs j => j
  | _ => ⟨none, none, none, none⟩

/-- `additional_tags` (`celery_tasks.py` lines 263-266): every label of the
results mapping whose confidence is strictly above 80 contributes its
lower-cased name, in mapping order. -/
def additionalTags (labels : LabelMap) : List String :=
  (labels.filter (fun p => decide ((80 : Rat) < p.2.confidence))).map
    (fun p => pyLower p.1)

/-- One deterministic resolution of Python `list(set(l))`: the distinct
elements of `l` in the `List.dedup` order (last occurrences).  CPython
leaves the enumeration order of a set unspecified and each `set(...)`
construction may enumerate differently, so this fixed order is only used
where the proved fact is enumeration-insensitive (sizes, membership); the
relation `IsPySetList` below captures every order CPython could produce. -/
def pySetList (l : List String) : List String :=
  l.dedup

/-- The possible values of Python `list(set(l))`: any duplicate-free list
with exactly the members of `l`.  Each `set(...)` construction resolves
this independently — two constructions, even over equal contents, need not
agree on the order. -/
@[reducible] def IsPySetList (l d : List String) : Prop :=
  d.Nodup ∧ (∀ a ∈ l, a ∈ d) ∧ (∀ a ∈ d, a ∈ l)

/-- `video.tags = list(set(video.tags + additional_tags))[:20]`
(`celery_tasks.py` line 274). -/
def mergedTags (userTags : List String) (labels : LabelMap) : List String :=
  (pySetList (userTags ++ additionalTags labels)).take 20

/-- The `categories` list built before the set construction
(`celery_tasks.py` lines 268-271): entities of type PERSON, LOCATION or
ORGANIZATION contribute their lower-cased type, in order. -/
def categoriesPreList (ents : List Entity) : List String :=
  (ents.filter (fun e =>
      e.type == "PERSON" || e.type == "LOCATION" || e.type == "ORGANIZATION")).map
    (fun e => pyLower e.type)

/-- The `categories` computation (`celery_tasks.py` lines 268-271, 275):
the pre-list passed through `list(set(categories))` (deterministic
resolution). -/
def mergedCategories (ents : List Entity) : List String :=
  pySetList (categoriesPreList ents)

/-- The `results` dict accumulated during one re-check
(`celery_tasks.py` line 174): present keys are staged payloads. -/
structure StagedResults where
  labels : Option LabelMap
  faces : Option (List String)
  moderation : Option (List String)
  transcript : Option String
  sentiment : Option Sentiment
  keyPhrases : Option (List String)
  entities : Option (List Entity)
deriving DecidableEq, Repr

/-- The empty `results` dict. -/
def StagedResults.init : StagedResults :=
  ⟨none, none, none, none, none, none, none⟩

/-- The write-back block of `analyze_video_task` run when all jobs are
complete (`celery_tasks.py` lines 247-282): overwrite the per-kind result
fields from `results` (with `{}` / `''` / `[]` defaults for absent keys),
recompute tags and categories, mark the record completed, set
`processing_completed_at`, clear the error message. -/
def mergeStep (now : Nat) (v : VideoRecord) (r : StagedResults) : VideoRecord :=
  { v with
    detectedObjects :=
      match r.labels with
      | some l => StoredObjects.labelResults l
      | none => StoredObjects.empty
    detectedFaces := r.faces.getD []
    moderationLabels := r.moderation.getD []
    transcript := r.transcript.getD ""
    sentimentAnalysis := r.sentiment
    keyPhrases := r.keyPhrases.getD []
    entities := r.entities.getD []
    tags := mergedTags v.tags (r.labels.getD [])
    categories := mergedCategories (r.entities.getD [])
    status := Status.completed
    processingCompletedAt := some now
    errorMessage := none }

/-- The merge write-back with the two `list(set(...))` constructions left
as parameters: `dt` is the enumeration produced by
`set(video.tags + additional_tags)` (truncated to 20 afterwards) and `dc`
the one produced by `set(categories)`.  `mergeStep` is the instance where
both resolve to the `pySetList` order; the real program resolves each
construction to an arbitrary `IsPySetList` enumeration. -/
def mergeStepWith (now : Nat) (v : VideoRecord) (r : StagedResults)
    (dt dc : List String) : VideoRecord :=
  { v with
    detectedObjects :=
      match r.labels with
      | some l => StoredObjects.labelResults l
      | none => StoredObjects.empty
    detectedFaces := r.faces.getD []
    moderationLabels := r.moderation.getD []
    transcript := r.transcript.getD ""
    sentimentAnalysis := r.sentiment
    keyPhrases := r.keyPhrases.getD []
    entities := r.entities.getD []
    tags := dt.take 20
    categories := dc
    status := Status.completed
    processingCompletedAt := some now
    errorMessage := none }

/-- The records one run of the merge write-back can leave, with Python's
set-enumeration order unspecified: some admissible enumeration of the
merged tag set (truncated to 20) and some admissible enumeration of the
category set. -/
def MergeOutcome (now : Nat) (v : VideoRecord) (r : StagedResults)
    (vOut : VideoRecord) : Prop :=
  ∃ dt dc,
    IsPySetList (v.tags ++ additionalTags (r.labels.getD [])) dt ∧
    IsPySetList (categoriesPreList (r.entities.getD [])) dc ∧
    vOut = mergeStepWith now v r dt dc

/-- Output of the polling part of a re-check (`celery_tasks.py`
lines 173-241): the staged `results`, the `all_complete` flag, the emissions
made while polling, and the texts sent to the external Comprehend calls. -/
structure PollOut where
  staged : StagedResults
  allComplete : Bool
  emissions : List Emission
  comprehendTexts : List String
deriving DecidableEq, Repr

/-- Label-detection check (`celery_tasks.py` lines 176-185): stage the labels
when the poll says completed, otherwise clear `all_complete`; a raised
`ClientError` propagates out of the re-check. -/
def pollLabel (e : AnalyzeEnv) (j : PendingJobs) (a : PollOut) : Except String PollOut :=
  match j.labelDetection with
  | none => Except.ok a
  | some _ =>
    match e.labelPoll with
    | LabelPoll.completed l =>
        Except.ok { a with staged := { a.staged with labels := some l } }
    | LabelPoll.otherStatus _ => Except.ok { a with allComplete := false }
    | LabelPoll.serviceError m => Except.error m

/-- Face-detection check (`celery_tasks.py` lines 187-200): stage on
SUCCEEDED; any other terminal status is only logged; IN_PROGRESS clears
`all_complete`; a raised exception is caught and only logged. -/
def pollFace (e : AnalyzeEnv) (j : PendingJobs) (a : PollOut) : PollOut :=
  match j.faceDetection with
  | none => a
  | some _ =>
    match e.facePoll with
    | RekPoll.result st fs =>
        if st == "SUCCEEDED" then
          { a with staged := { a.staged with faces := some fs } }
        else if st != "IN_PROGRESS" then a
        else { a with allComplete := false }
    | RekPoll.serviceError _ => a

/-- Content-moderation check (`celery_tasks.py` lines 202-215), same shape
as the face-detection check. -/
def pollModeration (e : AnalyzeEnv) (j : PendingJobs) (a : PollOut) : PollOut :=
  match j.contentModeration with
  | none => a
  | some _ =>
    match e.moderationPoll with
    | RekPoll.result st ms =>
        if st == "SUCCEEDED" then
          { a with staged := { a.staged with moderation := some ms } }
        else if st != "IN_PROGRESS" then a
        else { a with allComplete := false }
    | RekPoll.serviceError _ => a

/-- Transcription check (`celery_tasks.py` lines 217-241): stage the
transcript when completed and, when it is non-empty, emit the 85% progress
update and immediately stage the Comprehend sentiment, key phrases and
entities for it; otherwise clear `all_complete`; a raised `ClientError`
propagates out of the re-check. -/
def pollTranscribe (e : AnalyzeEnv) (j : PendingJobs) (a : PollOut) : Except String PollOut :=
  match j.transcribeJob with
  | none => Except.ok a
  | some _ =>
    match e.transcribePoll with
    | TranscribePoll.completed t =>
        if t == "" then
          Except.ok { a with staged := { a.staged with transcript := some t } }
        else
          Except.ok { a with
            staged := { a.staged with
              transcript := some t
              sentiment := some (analyze_text_sentiment e.comprehend t).2
              keyPhrases := some (extract_key_phrases e.comprehend t).2
              entities := some (detect_entities e.comprehend t).2 }
            emissions := a.emissions ++
              [⟨"processing", "Analyzing transcript...", some 85⟩]
            comprehendTexts := a.comprehendTexts ++
              [(analyze_text_sentiment e.comprehend t).1,
               (extract_key_phrases e.comprehend t).1,
               (detect_entities e.comprehend t).1] }
    | TranscribePoll.otherStatus _ => Except.ok { a with allComplete := false }
    | TranscribePoll.serviceError m => Except.error m

/-- The whole polling part of one `analyze_video_task` re-check, in source
order: labels, faces, moderation, transcription. -/
def pollPhase (e : AnalyzeEnv) (j : PendingJobs) : Except String PollOut :=
  match pollLabel e j ⟨StagedResults.init, true, [], []⟩ with
  | Except.error m => Except.error m
  | Except.ok a1 => pollTranscribe e j (pollModeration e j (pollFace e j a1))

/-- The guard of the outer exception handler of `analyze_video_task`
(`celery_tasks.py` line 301): an exception whose lower-cased text contains
the word retry is re-raised without marking the video failed. -/
def escapesFailureHandler (msg : String) : Bool :=
  decide ("retry".data <:+: (pyLower msg).data)

/-- The text of the `Retry` control exception raised by a successful
`self.retry(countdown=30)` call.  Modelled from Celery
(`celery.exceptions.Retry`): the text names the retry and its delay. -/
def retryControlMessage : String :=
  "Retry in 30s"

/-- The text of the error Celery raises from `self.retry` once
`max_retries=10` is exhausted (`celery.app.task.Task.retry` raises
`MaxRetriesExceededError`).  Modelled from Celery: the text begins
with the words Cant retry followed by the task name and arguments, so its
lower-cased form contains the substring retry.  (Celery spells Cant with an
apostrophe; the apostrophe is immaterial to every statement below.) -/
def maxRetriesExceededMessage : String :=
  "Cant retry tasks.analyze_video[task-id] args:(video-id,) kwargs:"

/-- How one `analyze_video_task` invocation ended. -/
inductive Outcome
  | ok
  | retryScheduled
  | maxRetriesExceeded
  | taskFailed (msg : String)
deriving DecidableEq, Repr

/-- Result of one task invocation: the record as left in the database, the
notifications emitted, the texts sent to Comprehend, and how the invocation
ended. -/
structure StepResult where
  record : VideoRecord
  emissions : List Emission
  comprehendTexts : List String
  outcome : Outcome

/-- The failure write of `analyze_video_task`'s outer exception handler
(`celery_tasks.py` lines 307-313). -/
def analyzeFailRecord (now : Nat) (v : VideoRecord) (msg : String) : VideoRecord :=
  { v with
    status := Status.failed
    errorMessage := some ("Analysis failed: " ++ msg)
    processingCompletedAt := some now }

/-- The tail of one `analyze_video_task` invocation, applied to the result
of the polling part (`celery_tasks.py` lines 244-317).  If all jobs are
complete the merge runs and the record is completed (95% and 100%
notifications around it); otherwise the 75% notification is emitted and
`self.retry(countdown=30, max_retries=10)` raises: while the budget remains
this is the `Retry` control exception, afterwards it is the max-retries
error, and both are re-raised unchanged by the outer handler because their
lower-cased text contains the word retry.  A raised poll exception whose
text lacks that word is turned into a failed record by the handler. -/
def analyzeFinish (now : Nat) (retries : Nat) (v : VideoRecord) :
    Except String PollOut → StepResult
  | Except.error msg =>
      if escapesFailureHandler msg then
        ⟨v, [], [], Outcome.taskFailed msg⟩
      else
        ⟨analyzeFailRecord now v msg,
         [⟨"failed", "Analysis failed: " ++ msg, none⟩],
         [], Outcome.taskFailed msg⟩
  | Except.ok a =>
      if a.allComplete then
        ⟨mergeStep now v a.staged,
         a.emissions ++
           [⟨"processing", "Finalizing analysis...", some 95⟩,
            ⟨"completed", "Analysis complete!", some 100⟩],
         a.comprehendTexts, Outcome.ok⟩
      else
        if retries < 10 then
          if escapesFailureHandler retryControlMessage then
            ⟨v,
             a.emissions ++ [⟨"processing", "AI analysis in progress...", some 75⟩],
             a.comprehendTexts, Outcome.retryScheduled⟩
          else
            ⟨analyzeFailRecord now v retryControlMessage,
             a.emissions ++
               [⟨"processing", "AI analysis in progress...", some 75⟩,
                ⟨"failed", "Analysis failed: " ++ retryControlMessage, none⟩],
             a.comprehendTexts, Outcome.taskFailed retryControlMessage⟩
        else
          if escapesFailureHandler maxRetriesExceededMessage then
            ⟨v,
             a.emissions ++ [⟨"processing", "AI analysis in progress...", some 75⟩],
             a.comprehendTexts, Outcome.maxRetriesExceeded⟩
          else
            ⟨analyzeFailRecord now v maxRetriesExceededMessage,
             a.emissions ++
               [⟨"processing", "AI analysis in progress...", some 75⟩,
                ⟨"failed", "Analysis failed: " ++ maxRetriesExceededMessage, none⟩],
             a.comprehendTexts, Outcome.taskFailed maxRetriesExceededMessage⟩

/-- One invocation of `analyze_video_task` (`celery_tasks.py`
lines 158-317) on an existing record: poll every stored job kind, then run
the completion / retry / failure tail.  `retries` is Celery's
`self.request.retries` (number of earlier retries of this task chain). -/
def analyzeStep (e : AnalyzeEnv) (retries : Nat) (v : VideoRecord) : StepResult :=
  analyzeFinish e.now retries v (pollPhase e (jobsOf v.detectedObjects))

/-- What the external job submissions answer during one `process_video_task`
run, plus the wall-clock time of the run. -/
structure SubmitEnv where
  now : Nat
  labelJob : Except String String
  faceJob : Except String String
  moderationJob : Except String String
  transcribeJob : Except String String

/-- Result of one `process_video_task` invocation: the record as left in the
database, the notifications emitted, the sequence of status values committed,
and whether the analysis re-check was scheduled. -/
structure ProcessResult where
  record : VideoRecord
  emissions : List Emission
  statusWrites : List Status
  scheduledRecheck : Bool

/-- The failure path of `process_video_task` (`celery_tasks.py`
lines 142-156): mark the record failed with the raw error text, stamp
`processing_completed_at`, emit a failed notification. -/
def processFail (now : Nat) (v : VideoRecord) (ems : List Emission)
    (msg : String) : ProcessResult :=
  ⟨{ v with
      status := Status.failed
      errorMessage := some msg
      processingCompletedAt := some now },
   ems ++ [⟨"failed", "Processing failed: " ++ msg, none⟩],
   [Status.processing, Status.failed], false⟩

/-- One invocation of `process_video_task` (`celery_tasks.py` lines 72-156)
on an existing record: commit `processing` with `processing_started_at`,
submit the four jobs with a progress notification after each, store the
handles in `detected_objects`, schedule the analysis re-check, emit 65%.
Any submission error falls to the failure path after the notifications
already emitted. -/
def processStep (se : SubmitEnv) (v : VideoRecord) : ProcessResult :=
  let v1 := { v with
    status := Status.processing
    processingStartedAt := some se.now }
  let e10 : Emission := ⟨"processing", "Starting video analysis...", some 10⟩
  match se.labelJob with
  | Except.error m => processFail se.now v1 [e10] m
  | Except.ok h1 =>
    let e25 : Emission := ⟨"processing", "Analyzing video content...", some 25⟩
    match se.faceJob with
    | Except.error m => processFail se.now v1 [e10, e25] m
    | Except.ok h2 =>
      let e35 : Emission := ⟨"processing", "Detecting faces...", some 35⟩
      match se.moderationJob with
      | Except.error m => processFail se.now v1 [e10, e25, e35] m
      | Except.ok h3 =>
        let e45 : Emission := ⟨"processing", "Checking content safety...", some 45⟩
        match se.transcribeJob with
        | Except.error m => processFail se.now v1 [e10, e25, e35, e45] m
        | Except.ok h4 =>
          let e55 : Emission := ⟨"processing", "Transcribing audio...", some 55⟩
          let v2 := { v1 with
            detectedObjects := StoredObjects.jobs ⟨some h1, some h2, some h3, some h4⟩ }
          let e65 : Emission := ⟨"processing", "AI analysis in progress...", some 65⟩
          ⟨v2, [e10, e25, e35, e45, e55, e65], [Status.processing], true⟩

/-- The selection predicate of the watchdog sweep `cleanup_old_jobs`
(`celery_tasks.py` lines 325-333): status is `processing` and
`processing_started_at` lies strictly before `utcnow() - 2 hours`
(`t + 7200 < now` in seconds). -/
def stuckInProcessing (now : Nat) (v : VideoRecord) : Bool :=
  v.status == Status.processing &&
    (match v.processingStartedAt with
     | some t => decide (t + 7200 < now)
     | none => false)

/-- The action of one `cleanup_old_jobs` sweep on one record
(`celery_tasks.py` lines 319-348): a stuck record is failed with the
timeout error text and a completion stamp and a failed notification is
emitted; any other record is untouched. -/
def cleanupStep (now : Nat) (v : VideoRecord) : VideoRecord × List Emission :=
  if stuckInProcessing now v then
    ({ v with
        status := Status.failed
        errorMessage := some "Processing timeout - please try uploading again"
        processingCompletedAt := some now },
     [⟨"failed", "Processing timeout", none⟩])
  else (v, [])

/-- A maximal chain of `analyze_video_task` invocations: each re-check is
driven by the next environment; the chain continues only while the task
ends in a scheduled retry. -/
def analyzeRun : List AnalyzeEnv → Nat → VideoRecord → VideoRecord × List Emission
  | [], _, v => (v, [])
  | e :: rest, r, v =>
    match (analyzeStep e r v).outcome with
    | Outcome.retryScheduled =>
        ((analyzeRun rest (r + 1) (analyzeStep e r v).record).1,
         (analyzeStep e r v).emissions ++
           (analyzeRun rest (r + 1) (analyzeStep e r v).record).2)
    | _ => ((analyzeStep e r v).record, (analyzeStep e r v).emissions)

/-- One video's full pipeline: the `process_video_task` invocation followed,
when the re-check was scheduled, by the chain of `analyze_video_task`
re-checks. -/
def fullRun (se : SubmitEnv) (envs : List AnalyzeEnv) (v : VideoRecord) :
    VideoRecord × List Emission :=
  let p := processStep se v
  if p.scheduledRecheck then
    let a := analyzeRun envs 0 p.record
    (a.1, p.emissions ++ a.2)
  else (p.record, p.emissions)

/-- The numeric progress percents of a list of notifications, in order. -/
def progressValues (l : List Emission) : List Nat :=
  l.filterMap (fun e => e.progress)

/-- Whether a Rekognition poll answer is anything but IN_PROGRESS (a
success, a definitive failure, or a raised exception): exactly the answers
that do not clear `all_complete` for the face / moderation kinds. -/
def rekNotInProgress : RekPoll → Bool
  | RekPoll.result st _ => !(st == "IN_PROGRESS")
  | RekPoll.serviceError _ => true

/-- Whether a re-check environment makes that re-check emit the 85%
transcript-analysis notification (all four jobs pending): transcription
polled as completed with a non-empty transcript, and the label poll did not
raise (a raised label poll aborts the re-check before transcription). -/
def envEmits85 (e : AnalyzeEnv) : Bool :=
  (match e.labelPoll with
   | LabelPoll.serviceError _ => false
   | _ => true) &&
  (match e.transcribePoll with
   | TranscribePoll.completed t => !(t == "")
   | _ => false)

/-- Whether a re-check environment leaves `all_complete` true when all four
jobs are pending: labels completed, neither Rekognition poll reporting
IN_PROGRESS, transcription completed. -/
def envAllComplete (e : AnalyzeEnv) : Bool :=
  (match e.labelPoll with
   | LabelPoll.completed _ => true
   | _ => false) &&
  rekNotInProgress e.facePoll &&
  rekNotInProgress e.moderationPoll &&
  (match e.transcribePoll with
   | TranscribePoll.completed _ => true
   | _ => false)

/-- The transition table of spec section 4.3:
`uploaded -> processing`, `processing -> completed`, `processing -> failed`
and the `processing -> processing` self-transition. -/
def allowedEdge : Status → Status → Bool
  | Status.uploaded, Status.processing => true
  | Status.processing, Status.processing => true
  | Status.processing, Status.completed => true
  | Status.processing, Status.failed => true
  | _, _ => false

/-- A concrete Comprehend environment with constant answers, used for
concrete runs. -/
def cEnvConst : ComprehendEnv :=
  ⟨fun _ => ⟨"NEUTRAL"⟩, fun _ => ["hello world"], fun _ => [⟨"Bob", "PERSON", 9/10⟩]⟩

/-- A freshly uploaded record, as created by the upload route
(`backend/routes/upload.py` lines 166-183): status `uploaded`, no analysis
fields, no error, empty user tags. -/
def freshRecord : VideoRecord :=
  ⟨Status.uploaded, none, none, none, StoredObjects.empty, [], [], "",
   none, [], [], [], []⟩

/-- A submission environment in which all four job submissions succeed,
at time 0. -/
def submitOk : SubmitEnv :=
  ⟨0, Except.ok "label-job-1", Except.ok "face-job-1",
   Except.ok "moderation-job-1", Except.ok "transcribe-job-1"⟩

/-- The record after a successful `process_video_task` run at time 0:
`processing`, with all four job handles stored. -/
def recAfterProcess : VideoRecord :=
  (processStep submitOk freshRecord).record

/-- A re-check environment in which all four jobs succeeded
(transcript `"hello world"`). -/
def envAllDone : AnalyzeEnv :=
  ⟨40, LabelPoll.completed [("Dog", ⟨85, [0]⟩)],
   RekPoll.result "SUCCEEDED" ["face-1"],
   RekPoll.result "SUCCEEDED" ["mod-1"],
   TranscribePoll.completed "hello world", cEnvConst⟩

/-- A re-check environment in which every job is still running. -/
def envStillPending : AnalyzeEnv :=
  ⟨40, LabelPoll.otherStatus "IN_PROGRESS",
   RekPoll.result "IN_PROGRESS" [],
   RekPoll.result "IN_PROGRESS" [],
   TranscribePoll.otherStatus "IN_PROGRESS", cEnvConst⟩

/-- A re-check environment in which transcription has completed with a
non-empty transcript while all three Rekognition jobs are still running. -/
def envTranscribeFirst : AnalyzeEnv :=
  ⟨40, LabelPoll.otherStatus "IN_PROGRESS",
   RekPoll.result "IN_PROGRESS" [],
   RekPoll.result "IN_PROGRESS" [],
   TranscribePoll.completed "hello", cEnvConst⟩

/-- A re-check environment in which label detection has definitively FAILED
while the other three jobs succeeded. -/
def envLabelFailed : AnalyzeEnv :=
  ⟨40, LabelPoll.otherStatus "FAILED",
   RekPoll.result "SUCCEEDED" ["face-1"],
   RekPoll.result "SUCCEEDED" ["mod-1"],
   TranscribePoll.completed "hello world", cEnvConst⟩

/-- A re-check environment in which face detection definitively FAILED
while the other three jobs succeeded. -/
def envFaceFailed : AnalyzeEnv :=
  ⟨40, LabelPoll.completed [("Dog", ⟨85, [0]⟩)],
   RekPoll.result "FAILED" [],
   RekPoll.result "SUCCEEDED" ["mod-1"],
   TranscribePoll.completed "hello world", cEnvConst⟩

/-- A re-check environment in which all four jobs succeeded with an empty
transcript. -/
def envEmptyTranscript : AnalyzeEnv :=
  ⟨40, LabelPoll.completed [("Dog", ⟨85, [0]⟩)],
   RekPoll.result "SUCCEEDED" ["face-1"],
   RekPoll.result "SUCCEEDED" ["mod-1"],
   TranscribePoll.completed "", cEnvConst⟩

/-- The record left by the watchdog sweep running at time 7201 on
`recAfterProcess` (which entered `processing` at time 0, more than two hours
earlier): failed with the timeout error text. -/
def recFailedByWatchdog : VideoRecord :=
  (cleanupStep 7201 recAfterProcess).1

/-- Twenty-one pairwise distinct label names, all case variants of LABEL
(so all lower-casing to the single tag label), each with confidence 85. -/
def labels21 : LabelMap :=
  [("LABEL", ⟨85, []⟩), ("LABEl", ⟨85, []⟩), ("LABeL", ⟨85, []⟩),
   ("LABel", ⟨85, []⟩), ("LAbEL", ⟨85, []⟩), ("LAbEl", ⟨85, []⟩),
   ("LAbeL", ⟨85, []⟩), ("LAbel", ⟨85, []⟩), ("LaBEL", ⟨85, []⟩),
   ("LaBEl", ⟨85, []⟩), ("LaBeL", ⟨85, []⟩), ("LaBel", ⟨85, []⟩),
   ("LabEL", ⟨85, []⟩), ("LabEl", ⟨85, []⟩), ("LabeL", ⟨85, []⟩),
   ("Label", ⟨85, []⟩), ("lABEL", ⟨85, []⟩), ("lABEl", ⟨85, []⟩),
   ("lABeL", ⟨85, []⟩), ("lABel", ⟨85, []⟩), ("lAbEL", ⟨85, []⟩)]

/-- Twenty-one labels with pairwise distinct lower-casings, each with
confidence 85. -/
def labelsDistinct21 : LabelMap :=
  [("TagA", ⟨85, []⟩), ("TagB", ⟨85, []⟩), ("TagC", ⟨85, []⟩),
   ("TagD", ⟨85, []⟩), ("TagE", ⟨85, []⟩), ("TagF", ⟨85, []⟩),
   ("TagG", ⟨85, []⟩), ("TagH", ⟨85, []⟩), ("TagI", ⟨85, []⟩),
   ("TagJ", ⟨85, []⟩), ("TagK", ⟨85, []⟩), ("TagL", ⟨85, []⟩),
   ("TagM", ⟨85, []⟩), ("TagN", ⟨85, []⟩), ("TagO", ⟨85, []⟩),
   ("TagP", ⟨85, []⟩), ("TagQ", ⟨85, []⟩), ("TagR", ⟨85, []⟩),
   ("TagS", ⟨85, []⟩), ("TagT", ⟨85, []⟩), ("TagU", ⟨85, []⟩)]

/-- Staged results holding only the 21 distinct labels (the other job
payloads absent), as handed to the merge write-back. -/
def stagedDistinct21 : StagedResults :=
  ⟨some labelsDistinct21, none, none, none, none, none, none⟩

/-- One admissible enumeration of the 21 merged tags: insertion order. -/
def enumA : List String :=
  ["taga", "tagb", "tagc", "tagd", "tage", "tagf", "tagg", "tagh", "tagi",
   "tagj", "tagk", "tagl", "tagm", "tagn", "tago", "tagp", "tagq", "tagr",
   "tags", "tagt", "tagu"]

/-- Another admissible enumeration of the same 21 tags: `tagu` first.  A
different `set(...)` construction (different table history, different hash
seed) may enumerate the same members in this order. -/
def enumB : List String :=
  ["tagu", "taga", "tagb", "tagc", "tagd", "tage", "tagf", "tagg", "tagh",
   "tagi", "tagj", "tagk", "tagl", "tagm", "tagn", "tago", "tagp", "tagq",
   "tagr", "tags", "tagt"]

/-- The record a first merge run can produce on a fresh record with the 21
distinct labels, when `set` enumerates in insertion order: tags
`taga ... tagt` (`tagu` truncated away). -/
def vRun1 : VideoRecord :=
  mergeStepWith 40 freshRecord stagedDistinct21 enumA []

/-- The record a second merge run over the same staged payloads can then
produce, when the new `set(video.tags + additional_tags)` enumerates with
`tagu` first: tags `tagu, taga ... tags` — `tagu` resurfaces and `tagt` is
truncated away instead. -/
def vRun2 : VideoRecord :=
  mergeStepWith 40 vRun1 stagedDistinct21 enumB []

/-! ## Helper lemmas -/

/-- The outer exception guard re-raises the `Retry` control exception. -/
theorem escapes_retryControl : escapesFailureHandler retryControlMessage = true := by
  decide

/-- The outer exception guard also re-raises the max-retries error: its
lower-cased text contains the substring retry. -/
theorem escapes_maxRetries : escapesFailureHandler maxRetriesExceededMessage = true := by
  decide

/-- An `analyze_video_task` invocation leaves the stored status unchanged,
completes the record, or fails it; no other status value is ever written. -/
theorem analyzeStep_status (e : AnalyzeEnv) (r : Nat) (v : VideoRecord) :
    (analyzeStep e r v).record.status = v.status ∨
    (analyzeStep e r v).record.status = Status.completed ∨
    (analyzeStep e r v).record.status = Status.failed := by
  unfold analyzeStep
  cases pollPhase e (jobsOf v.detectedObjects) with
  | error m =>
      by_cases h : escapesFailureHandler m = true
      · simp [analyzeFinish, h]
      · simp [analyzeFinish, h, analyzeFailRecord]
  | ok a =>
      by_cases hc : a.allComplete = true
      · simp [analyzeFinish, hc, mergeStep]
      · by_cases hr : r < 10
        · simp [analyzeFinish, hc, hr, escapes_retryControl]
        · simp [analyzeFinish, hc, hr, escapes_maxRetries]

/-! ## C3: exhausting the re-check budget -/

/-- C3 (code divergence): on the re-check that exhausts the retry budget
(`retries = 10`, so `self.retry` raises the max-retries error) with the
polling still incomplete, `analyze_video_task` leaves the record exactly as
it was: the status stays `processing`-as-stored, no timeout error message is
written, and the stored job handles are not cleared, because the
max-retries error text contains the word retry and is therefore re-raised
by the outer handler instead of being turned into a `failed` record. -/
theorem analyze_budget_exhausted_leaves_record
    (e : AnalyzeEnv) (v : VideoRecord) (a : PollOut)
    (hp : pollPhase e (jobsOf v.detectedObjects) = Except.ok a)
    (hc : a.allComplete = false) :
    (analyzeStep e 10 v).record = v ∧
    (analyzeStep e 10 v).outcome = Outcome.maxRetriesExceeded := by
  unfold analyzeStep
  rw [hp]
  simp [analyzeFinish, hc, escapes_maxRetries]

/-- Witness for `analyze_budget_exhausted_leaves_record`: with every job
still running at the eleventh poll, the record (still `processing`, error
message still absent, job handles still stored) is returned untouched. -/
theorem analyze_budget_exhausted_leaves_record_witness :
    (analyzeStep envStillPending 10 recAfterProcess).record = recAfterProcess ∧
    (analyzeStep envStillPending 10 recAfterProcess).outcome = Outcome.maxRetriesExceeded :=
  analyze_budget_exhausted_leaves_record envStillPending recAfterProcess
    ⟨StagedResults.init, false, [], []⟩ (by rfl) (by rfl)

/-! ## C1: the status transition table -/

/-- C1 counterexample: the transition-table invariant fails as stated.  When
the watchdog sweep fires more than two hours after `process_video_task`
started the pipeline (a re-check delivered late), the record is `failed`;
the still-scheduled `analyze_video_task` re-check then finds every job
complete and writes `completed` — an automated step changes a terminal
status again (`failed -> completed` is not a table edge), and the record
observes both terminal states. -/
theorem c1_terminal_status_not_preserved :
    recFailedByWatchdog.status = Status.failed ∧
    (analyzeStep envAllDone 0 recFailedByWatchdog).record.status = Status.completed ∧
    allowedEdge Status.failed Status.completed = false := by
  decide

/-- C1 amended: each automated step on its own respects the table.
`process_video_task` on an `uploaded` record commits statuses along table
edges (`processing`, then possibly `failed`); `analyze_video_task` run while
the record is still `processing` only writes `processing`-preserving,
`completed` or `failed` — all table edges; and the watchdog either leaves a
record untouched or moves a `processing` record to `failed`.  The original
invariant additionally needs every re-check to run while the record is still
`processing` (i.e. before the watchdog has acted on it), because
`analyze_video_task` never re-reads the status before writing. -/
theorem c1_each_step_follows_table :
    (∀ se v, v.status = Status.uploaded →
      List.Chain' (fun a b => allowedEdge a b = true)
        (v.status :: (processStep se v).statusWrites)) ∧
    (∀ e r v, v.status = Status.processing →
      allowedEdge v.status (analyzeStep e r v).record.status = true) ∧
    (∀ now v, (cleanupStep now v).1.status = v.status ∨
      (v.status = Status.processing ∧ (cleanupStep now v).1.status = Status.failed)) := by
  refine ⟨?_, ?_, ?_⟩
  · intro se v h
    unfold processStep
    cases se.labelJob with
    | error m => simp [processFail, h, allowedEdge]
    | ok h1 =>
      cases se.faceJob with
      | error m => simp [processFail, h, allowedEdge]
      | ok h2 =>
        cases se.moderationJob with
        | error m => simp [processFail, h, allowedEdge]
        | ok h3 =>
          cases se.transcribeJob with
          | error m => simp [processFail, h, allowedEdge]
          | ok h4 => simp [h, allowedEdge]
  · intro e r v h
    rcases analyzeStep_status e r v with h1 | h1 | h1 <;> rw [h1, h] <;> rfl
  · intro now v
    by_cases hs : stuckInProcessing now v = true
    · right
      have hv : v.status = Status.processing := by
        have := hs
        unfold stuckInProcessing at this
        rcases Bool.and_eq_true_iff.mp this with ⟨h1, _⟩
        exact of_decide_eq_true (by simpa using h1)
      exact ⟨hv, by simp [cleanupStep, hs]⟩
    · left
      simp [cleanupStep, hs]

/-- Witness for `c1_each_step_follows_table`: the three parts applied to a
fresh upload, the record in `processing`, and the fresh record respectively. -/
theorem c1_each_step_follows_table_witness :
    List.Chain' (fun a b => allowedEdge a b = true)
      (freshRecord.status :: (processStep submitOk freshRecord).statusWrites) ∧
    allowedEdge recAfterProcess.status
      (analyzeStep envAllDone 0 recAfterProcess).record.status = true ∧
    ((cleanupStep 0 freshRecord).1.status = freshRecord.status ∨
      (freshRecord.status = Status.processing ∧
        (cleanupStep 0 freshRecord).1.status = Status.failed)) :=
  ⟨c1_each_step_follows_table.1 submitOk freshRecord (by rfl),
   c1_each_step_follows_table.2.1 envAllDone 0 recAfterProcess (by rfl),
   c1_each_step_follows_table.2.2 0 freshRecord⟩

/-! ## C8: the watchdog sweep -/

/-- C8 counterexample: the sweep does fail a record stuck in `processing`
for more than two hours, but the error message it writes is
`Processing timeout - please try uploading again`, not the claimed
`Processing timeout` (that shorter text is only the notification message). -/
theorem c8_watchdog_message_differs :
    recFailedByWatchdog.status = Status.failed ∧
    recFailedByWatchdog.errorMessage =
      some "Processing timeout - please try uploading again" ∧
    recFailedByWatchdog.errorMessage ≠ some "Processing timeout" ∧
    (cleanupStep 7201 recAfterProcess).2 =
      [⟨"failed", "Processing timeout", none⟩] := by
  decide

/-- C8 amended: the sweep fails exactly the records that are `processing`
with `processing_started_at` strictly more than two hours in the past,
writing `errorMessage = "Processing timeout - please try uploading again"`
and stamping `processing_completed_at`; every other record — wrong status,
recent start, or no recorded start — is left unchanged. -/
theorem c8_watchdog_sweep_characterised :
    (∀ now v t, v.status = Status.processing → v.processingStartedAt = some t →
      t + 7200 < now →
      (cleanupStep now v).1 = { v with
        status := Status.failed,
        errorMessage := some "Processing timeout - please try uploading again",
        processingCompletedAt := some now }) ∧
    (∀ now v, v.status ≠ Status.processing → (cleanupStep now v).1 = v) ∧
    (∀ now v t, v.processingStartedAt = some t → now ≤ t + 7200 →
      (cleanupStep now v).1 = v) ∧
    (∀ now v, v.processingStartedAt = none → (cleanupStep now v).1 = v) := by
  refine ⟨?_, ?_, ?_, ?_⟩
  · intro now v t h1 h2 h3
    have hs : stuckInProcessing now v = true := by
      unfold stuckInProcessing
      rw [h2]
      simp [h1, h3]
    simp [cleanupStep, hs]
  · intro now v h1
    have hs : stuckInProcessing now v = false := by
      unfold stuckInProcessing
      simp [h1]
    simp [cleanupStep, hs]
  · intro now v t h1 h2
    have hs : stuckInProcessing now v = false := by
      unfold stuckInProcessing
      rw [h1]
      simp
      omega
    simp [cleanupStep, hs]
  · intro now v h1
    have hs : stuckInProcessing now v = false := by
      unfold stuckInProcessing
      rw [h1]
      simp
    simp [cleanupStep, hs]

/-- Witness for `c8_watchdog_sweep_characterised`: the stuck record is
failed with the full message; a fresh record and a recently started record
are untouched. -/
theorem c8_watchdog_sweep_characterised_witness :
    (cleanupStep 7201 recAfterProcess).1 = { recAfterProcess with
      status := Status.failed,
      errorMessage := some "Processing timeout - please try uploading again",
      processingCompletedAt := some 7201 } ∧
    (cleanupStep 7201 freshRecord).1 = freshRecord ∧
    (cleanupStep 7200 recAfterProcess).1 = recAfterProcess :=
  ⟨c8_watchdog_sweep_characterised.1 7201 recAfterProcess 0 (by rfl) (by rfl)
      (by decide),
   c8_watchdog_sweep_characterised.2.1 7201 freshRecord (by decide),
   c8_watchdog_sweep_characterised.2.2.1 7200 recAfterProcess 0 (by rfl)
      (by decide)⟩

/-! ## C2: the 20-tag cap -/

/-- C2 counterexample: 21 pairwise distinct labels, each with confidence
85 > 80, all case variants of one word — so 21 lower-cased tags pass the
threshold — yet after dedup the merged tag list has length 1, not 20. -/
theorem c2_distinct_labels_do_not_force_twenty :
    (labels21.map Prod.fst).Nodup ∧
    labels21.length = 21 ∧
    (∀ p ∈ labels21, (80 : Rat) < p.2.confidence) ∧
    (additionalTags labels21).length = 21 ∧
    (mergedTags [] labels21).length = 1 := by
  decide

/-- C2 amended: the merged tag list never exceeds 20 entries, for every
combination of user tags and labels; and whenever the labels passing the
confidence-80 threshold yield more than 20 *distinct lower-cased* tags, the
merged list has exactly 20 entries.  (Distinctness of the label names is
not enough: distinct names can collapse to one tag after lower-casing.) -/
theorem c2_tag_cap_after_merge (userTags : List String) (labels : LabelMap) :
    (mergedTags userTags labels).length ≤ 20 ∧
    (20 < (additionalTags labels).dedup.length →
      (mergedTags userTags labels).length = 20) := by
  constructor
  · unfold mergedTags pySetList
    rw [List.length_take]
    omega
  · intro h
    have hsub : (additionalTags labels).toFinset ⊆
        (userTags ++ additionalTags labels).toFinset := by
      intro x hx
      rw [List.mem_toFinset] at hx
      rw [List.mem_toFinset]
      exact List.mem_append_right _ hx
    have hcard : (additionalTags labels).toFinset.card ≤
        (userTags ++ additionalTags labels).toFinset.card :=
      Finset.card_le_card hsub
    rw [List.card_toFinset, List.card_toFinset] at hcard
    unfold mergedTags pySetList
    rw [List.length_take]
    omega

/-- Witness for `c2_tag_cap_after_merge`: 21 labels with distinct
lower-casings give exactly 20 merged tags. -/
theorem c2_tag_cap_after_merge_witness :
    (mergedTags [] labels21).length ≤ 20 ∧
    (20 < (additionalTags labelsDistinct21).dedup.length ∧
      (mergedTags [] labelsDistinct21).length = 20) :=
  ⟨(c2_tag_cap_after_merge [] labels21).1,
   by decide,
   (c2_tag_cap_after_merge [] labelsDistinct21).2 (by decide)⟩

/-! ## C5: re-running the merge step -/

/-- The deterministic `pySetList` order is one admissible resolution of
`list(set(l))`. -/
theorem isPySetList_dedup (l : List String) : IsPySetList l (pySetList l) :=
  ⟨List.nodup_dedup l,
   fun _ ha => List.mem_dedup.mpr ha,
   fun _ ha => List.mem_dedup.mp ha⟩

/-- Every admissible enumeration of `set(l)` has the size of `l`'s distinct
elements. -/
theorem isPySetList_length {l d : List String} (h : IsPySetList l d) :
    d.length = l.dedup.length := by
  obtain ⟨hn, h1, h2⟩ := h
  have ht : d.toFinset = l.toFinset := by
    ext a
    simp only [List.mem_toFinset]
    exact ⟨fun ha => h2 a ha, fun ha => h1 a ha⟩
  calc d.length = d.toFinset.card := (List.toFinset_card_of_nodup hn).symm
    _ = l.toFinset.card := by rw [ht]
    _ = l.dedup.length := List.card_toFinset l

/-- Lists with the same members have dedups of the same length. -/
theorem dedup_length_eq_of_mem_iff {l l' : List String}
    (h : ∀ a, a ∈ l ↔ a ∈ l') : l.dedup.length = l'.dedup.length := by
  rw [← List.card_toFinset, ← List.card_toFinset]
  congr 1
  ext a
  simp only [List.mem_toFinset]
  exact h a

/-- The executable merge step is one of the records the nondeterministic
merge can produce. -/
theorem mergeStep_isOutcome (now : Nat) (v : VideoRecord) (r : StagedResults) :
    MergeOutcome now v r (mergeStep now v r) :=
  ⟨pySetList (v.tags ++ additionalTags (r.labels.getD [])),
   pySetList (categoriesPreList (r.entities.getD [])),
   isPySetList_dedup _, isPySetList_dedup _, rfl⟩

/-- C5 counterexample: with Python's set-enumeration order honestly
unspecified, re-running the merge with the same staged payloads does not
always reproduce the record: 21 distinct labels pass the threshold, the
first run's `set` enumeration truncates `tagu` away, and the second run's
fresh `set(video.tags + additional_tags)` construction may enumerate `tagu`
first, so the re-run's 20 surviving tags differ in membership (not just in
order) from the first run's. -/
theorem c5_merge_rerun_changes_tags :
    MergeOutcome 40 freshRecord stagedDistinct21 vRun1 ∧
    MergeOutcome 40 vRun1 stagedDistinct21 vRun2 ∧
    "tagu" ∈ vRun2.tags ∧
    "tagu" ∉ vRun1.tags ∧
    vRun2.tags ≠ vRun1.tags :=
  ⟨⟨enumA, [], by decide, by decide, rfl⟩,
   ⟨enumB, [], by decide, by decide, rfl⟩,
   by decide, by decide, by decide⟩

/-- C5 amended: across any two successive runs of the merge write-back with
the same staged payloads, every field is reproduced except the two
set-derived ones; `categories` keeps its membership (it is recomputed from
the staged entities, only the enumeration order may differ); `tags` never
gains duplicates and keeps its length, and when the stored tags and staged
labels yield at most 20 distinct tags (no truncation) it keeps its
membership too.  Only when more than 20 distinct tags pass can the re-run
change which 20 survive (`c5_merge_rerun_changes_tags`). -/
theorem c5_merge_rerun_characterised (now : Nat) (v : VideoRecord)
    (r : StagedResults) (v1 v2 : VideoRecord)
    (h1 : MergeOutcome now v r v1) (h2 : MergeOutcome now v1 r v2) :
    v2.status = v1.status ∧
    v2.errorMessage = v1.errorMessage ∧
    v2.processingStartedAt = v1.processingStartedAt ∧
    v2.processingCompletedAt = v1.processingCompletedAt ∧
    v2.detectedObjects = v1.detectedObjects ∧
    v2.detectedFaces = v1.detectedFaces ∧
    v2.moderationLabels = v1.moderationLabels ∧
    v2.transcript = v1.transcript ∧
    v2.sentimentAnalysis = v1.sentimentAnalysis ∧
    v2.keyPhrases = v1.keyPhrases ∧
    v2.entities = v1.entities ∧
    (∀ a, a ∈ v2.categories ↔ a ∈ v1.categories) ∧
    v2.tags.Nodup ∧
    v2.tags.length = v1.tags.length ∧
    ((v.tags ++ additionalTags (r.labels.getD [])).dedup.length ≤ 20 →
      ∀ a, a ∈ v2.tags ↔ a ∈ v1.tags) := by
  obtain ⟨dt1, dc1, hdt1, hdc1, hv1⟩ := h1
  obtain ⟨dt2, dc2, hdt2, hdc2, hv2⟩ := h2
  subst hv1
  subst hv2
  simp only [mergeStepWith] at hdt2
  refine ⟨rfl, rfl, rfl, rfl, rfl, rfl, rfl, rfl, rfl, rfl, rfl, ?_, ?_, ?_, ?_⟩
  · intro a
    exact ⟨fun ha => hdc1.2.1 a (hdc2.2.2 a ha),
           fun ha => hdc2.2.1 a (hdc1.2.2 a ha)⟩
  · exact hdt2.1.sublist (List.take_sublist _ _)
  · show (dt2.take 20).length = (dt1.take 20).length
    have e1 := isPySetList_length hdt1
    have e2 := isPySetList_length hdt2
    rw [List.length_take, List.length_take]
    by_cases hle : dt1.length ≤ 20
    · have ht : dt1.take 20 = dt1 := List.take_of_length_le hle
      rw [ht] at e2
      have hmm : ∀ a, a ∈ dt1 ++ additionalTags (r.labels.getD []) ↔
          a ∈ v.tags ++ additionalTags (r.labels.getD []) := by
        intro a
        rw [List.mem_append, List.mem_append]
        constructor
        · rintro (ha | ha)
          · exact List.mem_append.mp (hdt1.2.2 a ha)
          · exact Or.inr ha
        · intro ha
          exact Or.inl (hdt1.2.1 a (List.mem_append.mpr ha))
      have heq := dedup_length_eq_of_mem_iff hmm
      omega
    · have htn : (dt1.take 20).Nodup := hdt1.1.sublist (List.take_sublist _ _)
      have h20 : (dt1.take 20).length = 20 := by
        rw [List.length_take]
        omega
      have hsub : (dt1.take 20).toFinset ⊆
          (dt1.take 20 ++ additionalTags (r.labels.getD [])).toFinset := by
        intro a ha
        rw [List.mem_toFinset] at ha
        rw [List.mem_toFinset]
        exact List.mem_append_left _ ha
      have hcard := Finset.card_le_card hsub
      rw [List.toFinset_card_of_nodup htn, h20, List.card_toFinset] at hcard
      omega
  · intro hle a
    show a ∈ dt2.take 20 ↔ a ∈ dt1.take 20
    have e1 := isPySetList_length hdt1
    have ht1 : dt1.take 20 = dt1 := List.take_of_length_le (by omega)
    rw [ht1] at hdt2
    have hmm : ∀ b, b ∈ dt1 ++ additionalTags (r.labels.getD []) ↔
        b ∈ v.tags ++ additionalTags (r.labels.getD []) := by
      intro b
      rw [List.mem_append, List.mem_append]
      constructor
      · rintro (hb | hb)
        · exact List.mem_append.mp (hdt1.2.2 b hb)
        · exact Or.inr hb
      · intro hb
        exact Or.inl (hdt1.2.1 b (List.mem_append.mpr hb))
    have e2 := isPySetList_length hdt2
    have heq := dedup_length_eq_of_mem_iff hmm
    have ht2 : dt2.take 20 = dt2 := List.take_of_length_le (by omega)
    rw [ht1, ht2]
    constructor
    · intro ha
      have hb := hdt2.2.2 a ha
      have hb2 := (hmm a).mp hb
      exact hdt1.2.1 a hb2
    · intro ha
      exact hdt2.2.1 a (List.mem_append_left _ ha)

/-- Witness for `c5_merge_rerun_characterised`: two successive runs of the
executable merge on a fresh record with the 21-label payload. -/
theorem c5_merge_rerun_characterised_witness :
    (mergeStep 40 (mergeStep 40 freshRecord stagedDistinct21) stagedDistinct21).status =
      (mergeStep 40 freshRecord stagedDistinct21).status ∧
    (mergeStep 40 (mergeStep 40 freshRecord stagedDistinct21) stagedDistinct21).errorMessage =
      (mergeStep 40 freshRecord stagedDistinct21).errorMessage ∧
    (mergeStep 40 (mergeStep 40 freshRecord stagedDistinct21) stagedDistinct21).processingStartedAt =
      (mergeStep 40 freshRecord stagedDistinct21).processingStartedAt ∧
    (mergeStep 40 (mergeStep 40 freshRecord stagedDistinct21) stagedDistinct21).processingCompletedAt =
      (mergeStep 40 freshRecord stagedDistinct21).processingCompletedAt ∧
    (mergeStep 40 (mergeStep 40 freshRecord stagedDistinct21) stagedDistinct21).detectedObjects =
      (mergeStep 40 freshRecord stagedDistinct21).detectedObjects ∧
    (mergeStep 40 (mergeStep 40 freshRecord stagedDistinct21) stagedDistinct21).detectedFaces =
      (mergeStep 40 freshRecord stagedDistinct21).detectedFaces ∧
    (mergeStep 40 (mergeStep 40 freshRecord stagedDistinct21) stagedDistinct21).moderationLabels =
      (mergeStep 40 freshRecord stagedDistinct21).moderationLabels ∧
    (mergeStep 40 (mergeStep 40 freshRecord stagedDistinct21) stagedDistinct21).transcript =
      (mergeStep 40 freshRecord stagedDistinct21).transcript ∧
    (mergeStep 40 (mergeStep 40 freshRecord stagedDistinct21) stagedDistinct21).sentimentAnalysis =
      (mergeStep 40 freshRecord stagedDistinct21).sentimentAnalysis ∧
    (mergeStep 40 (mergeStep 40 freshRecord stagedDistinct21) stagedDistinct21).keyPhrases =
      (mergeStep 40 freshRecord stagedDistinct21).keyPhrases ∧
    (mergeStep 40 (mergeStep 40 freshRecord stagedDistinct21) stagedDistinct21).entities =
      (mergeStep 40 freshRecord stagedDistinct21).entities ∧
    (∀ a, a ∈ (mergeStep 40 (mergeStep 40 freshRecord stagedDistinct21) stagedDistinct21).categories ↔
      a ∈ (mergeStep 40 freshRecord stagedDistinct21).categories) ∧
    (mergeStep 40 (mergeStep 40 freshRecord stagedDistinct21) stagedDistinct21).tags.Nodup ∧
    (mergeStep 40 (mergeStep 40 freshRecord stagedDistinct21) stagedDistinct21).tags.length =
      (mergeStep 40 freshRecord stagedDistinct21).tags.length ∧
    ((freshRecord.tags ++ additionalTags (stagedDistinct21.labels.getD [])).dedup.length ≤ 20 →
      ∀ a, a ∈ (mergeStep 40 (mergeStep 40 freshRecord stagedDistinct21) stagedDistinct21).tags ↔
        a ∈ (mergeStep 40 freshRecord stagedDistinct21).tags) :=
  c5_merge_rerun_characterised 40 freshRecord stagedDistinct21
    (mergeStep 40 freshRecord stagedDistinct21)
    (mergeStep 40 (mergeStep 40 freshRecord stagedDistinct21) stagedDistinct21)
    (mergeStep_isOutcome 40 freshRecord stagedDistinct21)
    (mergeStep_isOutcome 40 (mergeStep 40 freshRecord stagedDistinct21) stagedDistinct21)

/-! ## Poll-pipeline lemmas -/

/-- A non-raising label check does not touch the transcript-related staged
fields, the emissions or the Comprehend call log. -/
theorem pollLabel_ok_preserves (e : AnalyzeEnv) (j : PendingJobs) (a b : PollOut)
    (h : pollLabel e j a = Except.ok b) :
    b.comprehendTexts = a.comprehendTexts ∧
    b.staged.transcript = a.staged.transcript ∧
    b.staged.sentiment = a.staged.sentiment ∧
    b.staged.keyPhrases = a.staged.keyPhrases ∧
    b.staged.entities = a.staged.entities ∧
    b.staged.faces = a.staged.faces ∧
    b.emissions = a.emissions := by
  unfold pollLabel at h
  split at h
  · cases h
    simp
  · split at h
    · cases h
      simp
    · cases h
      simp
    · cases h

/-- The face check only ever touches the staged faces and the
`all_complete` flag. -/
theorem pollFace_preserves (e : AnalyzeEnv) (j : PendingJobs) (a : PollOut) :
    (pollFace e j a).comprehendTexts = a.comprehendTexts ∧
    (pollFace e j a).staged.transcript = a.staged.transcript ∧
    (pollFace e j a).staged.sentiment = a.staged.sentiment ∧
    (pollFace e j a).staged.keyPhrases = a.staged.keyPhrases ∧
    (pollFace e j a).staged.entities = a.staged.entities ∧
    (pollFace e j a).staged.labels = a.staged.labels ∧
    (pollFace e j a).emissions = a.emissions := by
  unfold pollFace
  split
  · simp
  · split
    · split
      · simp
      · split
        · simp
        · simp
    · simp

/-- The moderation check only ever touches the staged moderation labels and
the `all_complete` flag. -/
theorem pollModeration_preserves (e : AnalyzeEnv) (j : PendingJobs) (a : PollOut) :
    (pollModeration e j a).comprehendTexts = a.comprehendTexts ∧
    (pollModeration e j a).staged.transcript = a.staged.transcript ∧
    (pollModeration e j a).staged.sentiment = a.staged.sentiment ∧
    (pollModeration e j a).staged.keyPhrases = a.staged.keyPhrases ∧
    (pollModeration e j a).staged.entities = a.staged.entities ∧
    (pollModeration e j a).staged.labels = a.staged.labels ∧
    (pollModeration e j a).staged.faces = a.staged.faces ∧
    (pollModeration e j a).emissions = a.emissions := by
  unfold pollModeration
  split
  · simp
  · split
    · split
      · simp
      · split
        · simp
        · simp
    · simp

/-- Full evaluation of the transcription check when the job is pending and
the poll reports completion with a non-empty transcript: the transcript is
staged, the 85% notification is emitted, and the three Comprehend calls are
made on the transcript truncated to its first 5000 characters, their
answers staged alongside. -/
theorem pollTranscribe_completed (e : AnalyzeEnv) (j : PendingJobs) (a : PollOut)
    (z tr : String) (hz : j.transcribeJob = some z)
    (hT : e.transcribePoll = TranscribePoll.completed tr) (hne : tr ≠ "") :
    pollTranscribe e j a = Except.ok { a with
      staged := { a.staged with
        transcript := some tr
        sentiment := some (e.comprehend.sentimentOf (pySlice tr 5000))
        keyPhrases := some (e.comprehend.keyPhrasesOf (pySlice tr 5000))
        entities := some (e.comprehend.entitiesOf (pySlice tr 5000)) }
      emissions := a.emissions ++
        [⟨"processing", "Analyzing transcript...", some 85⟩]
      comprehendTexts := a.comprehendTexts ++
        [pySlice tr 5000, pySlice tr 5000, pySlice tr 5000] } := by
  unfold pollTranscribe
  rw [hz, hT]
  simp [hne, analyze_text_sentiment, extract_key_phrases, detect_entities]

/-- A pending label job polled as completed stages the labels and touches
nothing else. -/
theorem pollLabel_completed (e : AnalyzeEnv) (j : PendingJobs) (a : PollOut)
    (w : String) (L : LabelMap)
    (hw : j.labelDetection = some w) (hL : e.labelPoll = LabelPoll.completed L) :
    pollLabel e j a =
      Except.ok { a with staged := { a.staged with labels := some L } } := by
  unfold pollLabel
  rw [hw, hL]

/-- The face check preserves `all_complete` whenever the poll answers
anything but IN_PROGRESS. -/
theorem pollFace_allComplete (e : AnalyzeEnv) (j : PendingJobs) (a : PollOut)
    (h : rekNotInProgress e.facePoll = true) :
    (pollFace e j a).allComplete = a.allComplete := by
  unfold pollFace
  cases hjf : j.faceDetection with
  | none => rfl
  | some _ =>
    cases hf : e.facePoll with
    | result st fs =>
      rw [hf] at h
      unfold rekNotInProgress at h
      by_cases hs : (st == "SUCCEEDED") = true
      · simp [hs]
      · simp at h
        simp [hs, h]
    | serviceError m => rfl

/-- The moderation check preserves `all_complete` whenever the poll answers
anything but IN_PROGRESS. -/
theorem pollModeration_allComplete (e : AnalyzeEnv) (j : PendingJobs) (a : PollOut)
    (h : rekNotInProgress e.moderationPoll = true) :
    (pollModeration e j a).allComplete = a.allComplete := by
  unfold pollModeration
  cases hjm : j.contentModeration with
  | none => rfl
  | some _ =>
    cases hm : e.moderationPoll with
    | result st ms =>
      rw [hm] at h
      unfold rekNotInProgress at h
      by_cases hs : (st == "SUCCEEDED") = true
      · simp [hs]
      · simp at h
        simp [hs, h]
    | serviceError m => rfl

/-- A pending transcription job polled as completed (with any transcript)
succeeds and preserves `all_complete`. -/
theorem pollTranscribe_completed_ok (e : AnalyzeEnv) (j : PendingJobs) (a : PollOut)
    (z tr : String) (hz : j.transcribeJob = some z)
    (hT : e.transcribePoll = TranscribePoll.completed tr) :
    ∃ b, pollTranscribe e j a = Except.ok b ∧ b.allComplete = a.allComplete := by
  unfold pollTranscribe
  rw [hz, hT]
  dsimp only
  by_cases htr : (tr == "") = true
  · exact ⟨_, if_pos htr, rfl⟩
  · exact ⟨_, if_neg htr, rfl⟩

/-- When the pending label job polls as completed, the whole polling phase
is the face, moderation and transcription checks run after staging the
labels. -/
theorem pollPhase_eval (e : AnalyzeEnv) (j : PendingJobs) (w : String) (L : LabelMap)
    (hw : j.labelDetection = some w) (hL : e.labelPoll = LabelPoll.completed L) :
    pollPhase e j = pollTranscribe e j (pollModeration e j (pollFace e j
      ⟨{ StagedResults.init with labels := some L }, true, [], []⟩)) := by
  unfold pollPhase
  rw [pollLabel_completed e j ⟨StagedResults.init, true, [], []⟩ w L hw hL]

/-- A pending label job polled with any non-completed status only clears
`all_complete`. -/
theorem pollLabel_otherStatus (e : AnalyzeEnv) (j : PendingJobs) (a : PollOut)
    (w s : String)
    (hw : j.labelDetection = some w) (hL : e.labelPoll = LabelPoll.otherStatus s) :
    pollLabel e j a = Except.ok { a with allComplete := false } := by
  unfold pollLabel
  rw [hw, hL]

/-- When the pending label job polls as non-completed, the whole polling
phase is the face, moderation and transcription checks run with
`all_complete` already cleared. -/
theorem pollPhase_eval_other (e : AnalyzeEnv) (j : PendingJobs) (w s : String)
    (hw : j.labelDetection = some w) (hL : e.labelPoll = LabelPoll.otherStatus s) :
    pollPhase e j = pollTranscribe e j (pollModeration e j (pollFace e j
      ⟨StagedResults.init, false, [], []⟩)) := by
  unfold pollPhase
  rw [pollLabel_otherStatus e j ⟨StagedResults.init, true, [], []⟩ w s hw hL]

/-- Whatever the completion tail does, the Comprehend call log of a
non-raising re-check is exactly the poll phase's. -/
theorem analyzeFinish_texts (now retries : Nat) (v : VideoRecord) (a : PollOut) :
    (analyzeFinish now retries v (Except.ok a)).comprehendTexts =
      a.comprehendTexts := by
  by_cases hc : a.allComplete = true
  · simp [analyzeFinish, hc]
  · by_cases hr : retries < 10
    · simp [analyzeFinish, hc, hr, escapes_retryControl]
    · simp [analyzeFinish, hc, hr, escapes_maxRetries]

/-- A re-check that ends in the completed outcome wrote exactly the merge
of the staged payloads. -/
theorem analyzeFinish_ok_record (now retries : Nat) (v : VideoRecord) (a : PollOut)
    (h : (analyzeFinish now retries v (Except.ok a)).outcome = Outcome.ok) :
    (analyzeFinish now retries v (Except.ok a)).record = mergeStep now v a.staged := by
  by_cases hc : a.allComplete = true
  · simp [analyzeFinish, hc]
  · exfalso
    by_cases hr : retries < 10
    · simp [analyzeFinish, hc, hr, escapes_retryControl] at h
    · simp [analyzeFinish, hc, hr, escapes_maxRetries] at h

/-- Downstream of a re-check whose polling phase runs the face, moderation
and transcription checks from a staging state `A` with an empty Comprehend
call log, when transcription polls as completed with a non-empty
transcript: the three Comprehend calls receive exactly the transcript
truncated to 5000 characters, and if the re-check completes the video, the
merged record carries their answers and the full transcript. -/
theorem analyzeStep_transcribed (e : AnalyzeEnv) (r : Nat) (v : VideoRecord)
    (A : PollOut) (z tr : String)
    (hz : (jobsOf v.detectedObjects).transcribeJob = some z)
    (hphase : pollPhase e (jobsOf v.detectedObjects) =
      pollTranscribe e (jobsOf v.detectedObjects)
        (pollModeration e (jobsOf v.detectedObjects)
          (pollFace e (jobsOf v.detectedObjects) A)))
    (hA : A.comprehendTexts = [])
    (hT : e.transcribePoll = TranscribePoll.completed tr) (hne : tr ≠ "") :
    (analyzeStep e r v).comprehendTexts =
      [pySlice tr 5000, pySlice tr 5000, pySlice tr 5000] ∧
    ((analyzeStep e r v).outcome = Outcome.ok →
      (analyzeStep e r v).record.sentimentAnalysis =
        some (e.comprehend.sentimentOf (pySlice tr 5000)) ∧
      (analyzeStep e r v).record.keyPhrases =
        e.comprehend.keyPhrasesOf (pySlice tr 5000) ∧
      (analyzeStep e r v).record.entities =
        e.comprehend.entitiesOf (pySlice tr 5000) ∧
      (analyzeStep e r v).record.transcript = tr) := by
  have htexts3 : (pollModeration e (jobsOf v.detectedObjects)
      (pollFace e (jobsOf v.detectedObjects) A)).comprehendTexts = [] := by
    rw [(pollModeration_preserves e _ _).1, (pollFace_preserves e _ A).1, hA]
  have hstep := pollTranscribe_completed e (jobsOf v.detectedObjects)
    (pollModeration e (jobsOf v.detectedObjects)
      (pollFace e (jobsOf v.detectedObjects) A)) z tr hz hT hne
  have hphase2 : pollPhase e (jobsOf v.detectedObjects) = Except.ok
      { pollModeration e (jobsOf v.detectedObjects)
          (pollFace e (jobsOf v.detectedObjects) A) with
        staged := { (pollModeration e (jobsOf v.detectedObjects)
            (pollFace e (jobsOf v.detectedObjects) A)).staged with
          transcript := some tr
          sentiment := some (e.comprehend.sentimentOf (pySlice tr 5000))
          keyPhrases := some (e.comprehend.keyPhrasesOf (pySlice tr 5000))
          entities := some (e.comprehend.entitiesOf (pySlice tr 5000)) }
        emissions := (pollModeration e (jobsOf v.detectedObjects)
            (pollFace e (jobsOf v.detectedObjects) A)).emissions ++
          [⟨"processing", "Analyzing transcript...", some 85⟩]
        comprehendTexts := (pollModeration e (jobsOf v.detectedObjects)
            (pollFace e (jobsOf v.detectedObjects) A)).comprehendTexts ++
          [pySlice tr 5000, pySlice tr 5000, pySlice tr 5000] } := by
    rw [hphase, hstep]
  constructor
  · unfold analyzeStep
    rw [hphase2, analyzeFinish_texts]
    simp [htexts3]
  · intro hok
    unfold analyzeStep at hok ⊢
    rw [hphase2] at hok ⊢
    rw [analyzeFinish_ok_record e.now r v _ hok]
    simp [mergeStep]

/-- The Python slice keeps a short text whole. -/
theorem pySlice_of_le (s : String) (n : Nat) (h : s.length ≤ n) :
    pySlice s n = s := by
  cases s with
  | mk data =>
    unfold pySlice
    simp only [String.length] at h
    simp [List.take_of_length_le h]

/-! ## C7: tolerated face-detection failure -/

/-- C7: when the face-detection poll reports a terminal non-succeeded
status while label detection, content moderation and transcription all
succeed, the run still completes and the completed record's detected-faces
field is empty: the face failure is only logged, `all_complete` stays true,
and no faces payload is staged, so the merge writes the `[]` default. -/
theorem c7_face_failure_run_completes
    (e : AnalyzeEnv) (r : Nat) (v : VideoRecord) (w x y z : String)
    (L : LabelMap) (st : String) (fs ms : List String) (tr : String)
    (hj : v.detectedObjects = StoredObjects.jobs ⟨some w, some x, some y, some z⟩)
    (hL : e.labelPoll = LabelPoll.completed L)
    (hF : e.facePoll = RekPoll.result st fs)
    (h1 : st ≠ "SUCCEEDED") (h2 : st ≠ "IN_PROGRESS")
    (hM : e.moderationPoll = RekPoll.result "SUCCEEDED" ms)
    (hT : e.transcribePoll = TranscribePoll.completed tr) :
    (analyzeStep e r v).outcome = Outcome.ok ∧
    (analyzeStep e r v).record.status = Status.completed ∧
    (analyzeStep e r v).record.detectedFaces = [] := by
  have hb1 : (st == "SUCCEEDED") = false := beq_eq_false_iff_ne.mpr h1
  have hb2 : (st == "IN_PROGRESS") = false := beq_eq_false_iff_ne.mpr h2
  unfold analyzeStep pollPhase pollLabel pollFace pollModeration pollTranscribe
  rw [hj]
  by_cases htr : tr = ""
  · simp [jobsOf, hL, hF, hM, hT, hb1, hb2, h1, h2, htr, analyzeFinish,
      mergeStep, StagedResults.init]
  · simp [jobsOf, hL, hF, hM, hT, hb1, hb2, h1, h2, htr, analyzeFinish,
      mergeStep, StagedResults.init]

/-- Witness for `c7_face_failure_run_completes`: a concrete FAILED face
poll with the other three jobs succeeded completes the run with no stored
faces. -/
theorem c7_face_failure_run_completes_witness :
    (analyzeStep envFaceFailed 0 recAfterProcess).outcome = Outcome.ok ∧
    (analyzeStep envFaceFailed 0 recAfterProcess).record.status = Status.completed ∧
    (analyzeStep envFaceFailed 0 recAfterProcess).record.detectedFaces = [] :=
  c7_face_failure_run_completes envFaceFailed 0 recAfterProcess
    "label-job-1" "face-job-1" "moderation-job-1" "transcribe-job-1"
    [("Dog", ⟨85, [0]⟩)] "FAILED" [] ["mod-1"] "hello world"
    (by rfl) (by rfl) (by rfl) (by decide) (by decide) (by rfl) (by rfl)

/-! ## C10: empty transcript -/

/-- C10: when transcription completes with an empty transcript and the
three Rekognition jobs succeed, the Comprehend calls are skipped entirely
(no text is ever sent), and the run completes with empty transcript, no
sentiment object, empty key phrases, entities and categories, and no error. -/
theorem c10_empty_transcript_completes
    (e : AnalyzeEnv) (r : Nat) (v : VideoRecord) (w x y z : String)
    (L : LabelMap) (fs ms : List String)
    (hj : v.detectedObjects = StoredObjects.jobs ⟨some w, some x, some y, some z⟩)
    (hL : e.labelPoll = LabelPoll.completed L)
    (hF : e.facePoll = RekPoll.result "SUCCEEDED" fs)
    (hM : e.moderationPoll = RekPoll.result "SUCCEEDED" ms)
    (hT : e.transcribePoll = TranscribePoll.completed "") :
    (analyzeStep e r v).outcome = Outcome.ok ∧
    (analyzeStep e r v).comprehendTexts = [] ∧
    (analyzeStep e r v).record.status = Status.completed ∧
    (analyzeStep e r v).record.transcript = "" ∧
    (analyzeStep e r v).record.sentimentAnalysis = none ∧
    (analyzeStep e r v).record.keyPhrases = [] ∧
    (analyzeStep e r v).record.entities = [] ∧
    (analyzeStep e r v).record.categories = [] ∧
    (analyzeStep e r v).record.errorMessage = none := by
  unfold analyzeStep pollPhase pollLabel pollFace pollModeration pollTranscribe
  rw [hj]
  simp [jobsOf, hL, hF, hM, hT, analyzeFinish, mergeStep, StagedResults.init,
    mergedCategories, categoriesPreList, pySetList]

/-- Witness for `c10_empty_transcript_completes` at a concrete record and
environment. -/
theorem c10_empty_transcript_completes_witness :
    (analyzeStep envEmptyTranscript 0 recAfterProcess).outcome = Outcome.ok ∧
    (analyzeStep envEmptyTranscript 0 recAfterProcess).comprehendTexts = [] ∧
    (analyzeStep envEmptyTranscript 0 recAfterProcess).record.status = Status.completed ∧
    (analyzeStep envEmptyTranscript 0 recAfterProcess).record.transcript = "" ∧
    (analyzeStep envEmptyTranscript 0 recAfterProcess).record.sentimentAnalysis = none ∧
    (analyzeStep envEmptyTranscript 0 recAfterProcess).record.keyPhrases = [] ∧
    (analyzeStep envEmptyTranscript 0 recAfterProcess).record.entities = [] ∧
    (analyzeStep envEmptyTranscript 0 recAfterProcess).record.categories = [] ∧
    (analyzeStep envEmptyTranscript 0 recAfterProcess).record.errorMessage = none :=
  c10_empty_transcript_completes envEmptyTranscript 0 recAfterProcess
    "label-job-1" "face-job-1" "moderation-job-1" "transcribe-job-1"
    [("Dog", ⟨85, [0]⟩)] ["face-1"] ["mod-1"]
    (by rfl) (by rfl) (by rfl) (by rfl) (by rfl)

/-! ## C4: non-critical definitive failures -/

/-- C4 counterexample: a definitive FAILED answer for *label detection* — a
non-critical kind under the claim — does not let the run continue: even with
face detection, moderation and transcription all succeeded, the re-check
sets `all_complete = False` (the label branch treats every non-completed
status alike) and schedules another re-check of the same kind, and at the
exhausted budget the run still has not completed. -/
theorem c4_label_failure_blocks_completion :
    (analyzeStep envLabelFailed 0 recAfterProcess).outcome = Outcome.retryScheduled ∧
    (analyzeStep envLabelFailed 0 recAfterProcess).record = recAfterProcess ∧
    (analyzeStep envLabelFailed 0 recAfterProcess).record.status ≠ Status.completed ∧
    (analyzeStep envLabelFailed 10 recAfterProcess).outcome = Outcome.maxRetriesExceeded ∧
    (analyzeStep envLabelFailed 10 recAfterProcess).record.status ≠ Status.completed := by
  decide

/-- C4 amended: the partial-result tolerance holds for face detection and
content moderation, not for label detection: whenever the face and
moderation polls each answer anything but IN_PROGRESS (success, definitive
failure, or a raised-and-swallowed exception) while label detection and
transcription complete, the run reaches `completed`.  A definitive
label-detection failure instead keeps the run re-checking
(`c4_label_failure_blocks_completion`). -/
theorem c4_face_moderation_failures_tolerated
    (e : AnalyzeEnv) (r : Nat) (v : VideoRecord) (w x y z : String)
    (L : LabelMap) (tr : String)
    (hj : v.detectedObjects = StoredObjects.jobs ⟨some w, some x, some y, some z⟩)
    (hL : e.labelPoll = LabelPoll.completed L)
    (hF : rekNotInProgress e.facePoll = true)
    (hM : rekNotInProgress e.moderationPoll = true)
    (hT : e.transcribePoll = TranscribePoll.completed tr) :
    (analyzeStep e r v).outcome = Outcome.ok ∧
    (analyzeStep e r v).record.status = Status.completed := by
  obtain ⟨b, hb, hbc⟩ := pollTranscribe_completed_ok e ⟨some w, some x, some y, some z⟩
    (pollModeration e ⟨some w, some x, some y, some z⟩
      (pollFace e ⟨some w, some x, some y, some z⟩
        ⟨{ StagedResults.init with labels := some L }, true, [], []⟩)) z tr rfl hT
  have hphase : pollPhase e (jobsOf v.detectedObjects) = Except.ok b := by
    rw [hj]
    show pollPhase e (⟨some w, some x, some y, some z⟩ : PendingJobs) = Except.ok b
    rw [pollPhase_eval e ⟨some w, some x, some y, some z⟩ w L rfl hL]
    exact hb
  have hcomplete : b.allComplete = true := by
    rw [hbc, pollModeration_allComplete e _ _ hM, pollFace_allComplete e _ _ hF]
  unfold analyzeStep
  rw [hphase]
  simp [analyzeFinish, hcomplete, mergeStep]

/-- Witness for `c4_face_moderation_failures_tolerated`: face FAILED and
moderation succeeded, labels and transcription complete — the run
completes. -/
theorem c4_face_moderation_failures_tolerated_witness :
    (analyzeStep envFaceFailed 0 recAfterProcess).outcome = Outcome.ok ∧
    (analyzeStep envFaceFailed 0 recAfterProcess).record.status = Status.completed :=
  c4_face_moderation_failures_tolerated envFaceFailed 0 recAfterProcess
    "label-job-1" "face-job-1" "moderation-job-1" "transcribe-job-1"
    [("Dog", ⟨85, [0]⟩)] "hello world"
    (by rfl) (by rfl) (by decide) (by decide) (by rfl)

/-! ## C9: transcript truncation for the text analyses -/

/-- C9: whenever transcription succeeds with a non-empty transcript (and the
re-check is not aborted by a raised label poll), each of the three
Comprehend text analyses receives exactly the first 5000 characters of the
transcript — the whole transcript when it is 5000 characters or shorter —
and the answers computed from that truncated text are what the merge stages
and writes into the completed record, alongside the full transcript. -/
theorem c9_comprehend_truncated_transcript
    (e : AnalyzeEnv) (r : Nat) (v : VideoRecord) (w x y z tr : String)
    (hj : v.detectedObjects = StoredObjects.jobs ⟨some w, some x, some y, some z⟩)
    (hLne : ∀ m, e.labelPoll ≠ LabelPoll.serviceError m)
    (hT : e.transcribePoll = TranscribePoll.completed tr) (hne : tr ≠ "") :
    (analyzeStep e r v).comprehendTexts =
      [pySlice tr 5000, pySlice tr 5000, pySlice tr 5000] ∧
    (tr.length ≤ 5000 → pySlice tr 5000 = tr) ∧
    ((analyzeStep e r v).outcome = Outcome.ok →
      (analyzeStep e r v).record.sentimentAnalysis =
        some (e.comprehend.sentimentOf (pySlice tr 5000)) ∧
      (analyzeStep e r v).record.keyPhrases =
        e.comprehend.keyPhrasesOf (pySlice tr 5000) ∧
      (analyzeStep e r v).record.entities =
        e.comprehend.entitiesOf (pySlice tr 5000) ∧
      (analyzeStep e r v).record.transcript = tr) := by
  have hz : (jobsOf v.detectedObjects).transcribeJob = some z := by
    rw [hj]
    rfl
  have hw : (jobsOf v.detectedObjects).labelDetection = some w := by
    rw [hj]
    rfl
  have main :
      (analyzeStep e r v).comprehendTexts =
        [pySlice tr 5000, pySlice tr 5000, pySlice tr 5000] ∧
      ((analyzeStep e r v).outcome = Outcome.ok →
        (analyzeStep e r v).record.sentimentAnalysis =
          some (e.comprehend.sentimentOf (pySlice tr 5000)) ∧
        (analyzeStep e r v).record.keyPhrases =
          e.comprehend.keyPhrasesOf (pySlice tr 5000) ∧
        (analyzeStep e r v).record.entities =
          e.comprehend.entitiesOf (pySlice tr 5000) ∧
        (analyzeStep e r v).record.transcript = tr) := by
    cases hL : e.labelPoll with
    | completed L =>
        exact analyzeStep_transcribed e r v
          ⟨{ StagedResults.init with labels := some L }, true, [], []⟩ z tr hz
          (pollPhase_eval e (jobsOf v.detectedObjects) w L hw hL) rfl hT hne
    | otherStatus s =>
        exact analyzeStep_transcribed e r v
          ⟨StagedResults.init, false, [], []⟩ z tr hz
          (pollPhase_eval_other e (jobsOf v.detectedObjects) w s hw hL) rfl hT hne
    | serviceError m => exact absurd hL (hLne m)
  exact ⟨main.1, fun h => pySlice_of_le tr 5000 h, main.2⟩

/-- Witness for `c9_comprehend_truncated_transcript`: all four jobs done
with transcript `"hello world"` (11 characters): each Comprehend call gets
the whole transcript and the completed record carries the staged answers. -/
theorem c9_comprehend_truncated_transcript_witness :
    (analyzeStep envAllDone 0 recAfterProcess).comprehendTexts =
      [pySlice "hello world" 5000, pySlice "hello world" 5000,
       pySlice "hello world" 5000] ∧
    ("hello world".length ≤ 5000 → pySlice "hello world" 5000 = "hello world") ∧
    ((analyzeStep envAllDone 0 recAfterProcess).outcome = Outcome.ok →
      (analyzeStep envAllDone 0 recAfterProcess).record.sentimentAnalysis =
        some (envAllDone.comprehend.sentimentOf (pySlice "hello world" 5000)) ∧
      (analyzeStep envAllDone 0 recAfterProcess).record.keyPhrases =
        envAllDone.comprehend.keyPhrasesOf (pySlice "hello world" 5000) ∧
      (analyzeStep envAllDone 0 recAfterProcess).record.entities =
        envAllDone.comprehend.entitiesOf (pySlice "hello world" 5000) ∧
      (analyzeStep envAllDone 0 recAfterProcess).record.transcript = "hello world") :=
  c9_comprehend_truncated_transcript envAllDone 0 recAfterProcess
    "label-job-1" "face-job-1" "moderation-job-1" "transcribe-job-1" "hello world"
    (by rfl) (by intro m h; cases h) (by rfl) (by decide)

/-! ## C6: progress monotonicity -/

/-- A raised label poll makes the whole polling phase raise. -/
theorem pollPhase_label_error (e : AnalyzeEnv) (j : PendingJobs) (w m : String)
    (hw : j.labelDetection = some w) (hL : e.labelPoll = LabelPoll.serviceError m) :
    pollPhase e j = Except.error m := by
  unfold pollPhase pollLabel
  rw [hw, hL]

/-- With the face job pending, the face check leaves `all_complete` true
exactly when it was true and the poll answers anything but IN_PROGRESS. -/
theorem pollFace_flag (e : AnalyzeEnv) (j : PendingJobs) (a : PollOut) (x : String)
    (hx : j.faceDetection = some x) :
    (pollFace e j a).allComplete = (a.allComplete && rekNotInProgress e.facePoll) := by
  unfold pollFace
  rw [hx]
  cases hf : e.facePoll with
  | result st fs =>
    unfold rekNotInProgress
    by_cases hs : (st == "SUCCEEDED") = true
    · have hst : st = "SUCCEEDED" := by simpa using hs
      subst hst
      simp
    · by_cases hip : (st == "IN_PROGRESS") = true
      · have hip2 : st = "IN_PROGRESS" := by simpa using hip
        simp [hs, hip, hip2]
      · have hip2 : ¬st = "IN_PROGRESS" := by simpa using hip
        simp [hs, hip, hip2]
  | serviceError m =>
    simp [rekNotInProgress]

/-- With the moderation job pending, the moderation check leaves
`all_complete` true exactly when it was true and the poll answers anything
but IN_PROGRESS. -/
theorem pollModeration_flag (e : AnalyzeEnv) (j : PendingJobs) (a : PollOut) (y : String)
    (hy : j.contentModeration = some y) :
    (pollModeration e j a).allComplete =
      (a.allComplete && rekNotInProgress e.moderationPoll) := by
  unfold pollModeration
  rw [hy]
  cases hm : e.moderationPoll with
  | result st ms =>
    unfold rekNotInProgress
    by_cases hs : (st == "SUCCEEDED") = true
    · have hst : st = "SUCCEEDED" := by simpa using hs
      subst hst
      simp
    · by_cases hip : (st == "IN_PROGRESS") = true
      · have hip2 : st = "IN_PROGRESS" := by simpa using hip
        simp [hs, hip, hip2]
      · have hip2 : ¬st = "IN_PROGRESS" := by simpa using hip
        simp [hs, hip, hip2]
  | serviceError m =>
    simp [rekNotInProgress]

/-- Classification of one `analyze_video_task` re-check with all four jobs
stored, under the assumption that a re-check which emits the 85% transcript
notification finds everything complete: either the task schedules a retry,
leaves the record untouched and its progress values are exactly `[75]`, or
the task does not retry and its progress values are one of `[85, 95, 100]`,
`[95, 100]`, `[75]`, `[]`. -/
theorem analyzeStep_classify (e : AnalyzeEnv) (r : Nat) (v : VideoRecord)
    (w x y z : String)
    (hj : v.detectedObjects = StoredObjects.jobs ⟨some w, some x, some y, some z⟩)
    (h85 : envEmits85 e = true → envAllComplete e = true) :
    ((analyzeStep e r v).outcome = Outcome.retryScheduled ∧
      (analyzeStep e r v).record = v ∧
      progressValues (analyzeStep e r v).emissions = [75]) ∨
    ((analyzeStep e r v).outcome ≠ Outcome.retryScheduled ∧
      (progressValues (analyzeStep e r v).emissions = [85, 95, 100] ∨
       progressValues (analyzeStep e r v).emissions = [95, 100] ∨
       progressValues (analyzeStep e r v).emissions = [75] ∨
       progressValues (analyzeStep e r v).emissions = [])) := by
  have hw : (jobsOf v.detectedObjects).labelDetection = some w := by
    rw [hj]
    rfl
  have hx : (jobsOf v.detectedObjects).faceDetection = some x := by
    rw [hj]
    rfl
  have hy : (jobsOf v.detectedObjects).contentModeration = some y := by
    rw [hj]
    rfl
  have hz : (jobsOf v.detectedObjects).transcribeJob = some z := by
    rw [hj]
    rfl
  cases hL : e.labelPoll with
  | serviceError m =>
    have hphase := pollPhase_label_error e (jobsOf v.detectedObjects) w m hw hL
    right
    unfold analyzeStep
    rw [hphase]
    by_cases hg : escapesFailureHandler m = true
    · simp [analyzeFinish, hg, progressValues]
    · simp [analyzeFinish, hg, progressValues]
  | completed L =>
    have hphase := pollPhase_eval e (jobsOf v.detectedObjects) w L hw hL
    have hems3 : (pollModeration e (jobsOf v.detectedObjects)
        (pollFace e (jobsOf v.detectedObjects)
          ⟨{ StagedResults.init with labels := some L }, true, [], []⟩)).emissions
        = [] := by
      rw [(pollModeration_preserves e _ _).2.2.2.2.2.2.2,
          (pollFace_preserves e _ _).2.2.2.2.2.2]
    have hflag3 : (pollModeration e (jobsOf v.detectedObjects)
        (pollFace e (jobsOf v.detectedObjects)
          ⟨{ StagedResults.init with labels := some L }, true, [], []⟩)).allComplete
        = (rekNotInProgress e.facePoll && rekNotInProgress e.moderationPoll) := by
      rw [pollModeration_flag e _ _ y hy, pollFace_flag e _ _ x hx]
      simp [Bool.and_assoc]
    cases hTr : e.transcribePoll with
    | completed t =>
      by_cases ht : t = ""
      · have hstep : pollTranscribe e (jobsOf v.detectedObjects)
            (pollModeration e (jobsOf v.detectedObjects)
              (pollFace e (jobsOf v.detectedObjects)
                ⟨{ StagedResults.init with labels := some L }, true, [], []⟩)) =
            Except.ok { (pollModeration e (jobsOf v.detectedObjects)
                (pollFace e (jobsOf v.detectedObjects)
                  ⟨{ StagedResults.init with labels := some L }, true, [], []⟩)) with
              staged := { (pollModeration e (jobsOf v.detectedObjects)
                  (pollFace e (jobsOf v.detectedObjects)
                    ⟨{ StagedResults.init with labels := some L }, true, [], []⟩)).staged with
                transcript := some t } } := by
          unfold pollTranscribe
          rw [hz, hTr]
          simp [ht]
        unfold analyzeStep
        rw [hphase, hstep]
        by_cases hc : (rekNotInProgress e.facePoll && rekNotInProgress e.moderationPoll) = true
        · right
          simp [analyzeFinish, hflag3, hc, hems3, progressValues]
        · by_cases hr : r < 10
          · left
            simp [analyzeFinish, hflag3, hc, hr, escapes_retryControl, hems3,
              progressValues]
          · right
            simp [analyzeFinish, hflag3, hc, hr, escapes_maxRetries, hems3,
              progressValues]
      · have he85 : envEmits85 e = true := by
          unfold envEmits85
          rw [hL, hTr]
          simp [ht]
        have hac := h85 he85
        unfold envAllComplete at hac
        rw [hL, hTr] at hac
        simp at hac
        have hstep := pollTranscribe_completed e (jobsOf v.detectedObjects)
          (pollModeration e (jobsOf v.detectedObjects)
            (pollFace e (jobsOf v.detectedObjects)
              ⟨{ StagedResults.init with labels := some L }, true, [], []⟩)) z t hz hTr ht
        unfold analyzeStep
        rw [hphase, hstep]
        right
        simp [analyzeFinish, hflag3, hac.1, hac.2, hems3, progressValues]
    | otherStatus s2 =>
      have hstep : pollTranscribe e (jobsOf v.detectedObjects)
          (pollModeration e (jobsOf v.detectedObjects)
            (pollFace e (jobsOf v.detectedObjects)
              ⟨{ StagedResults.init with labels := some L }, true, [], []⟩)) =
          Except.ok { (pollModeration e (jobsOf v.detectedObjects)
              (pollFace e (jobsOf v.detectedObjects)
                ⟨{ StagedResults.init with labels := some L }, true, [], []⟩)) with
            allComplete := false } := by
        unfold pollTranscribe
        rw [hz, hTr]
      unfold analyzeStep
      rw [hphase, hstep]
      by_cases hr : r < 10
      · left
        simp [analyzeFinish, hr, escapes_retryControl, hems3, progressValues]
      · right
        simp [analyzeFinish, hr, escapes_maxRetries, hems3, progressValues]
    | serviceError m2 =>
      have hstep : pollTranscribe e (jobsOf v.detectedObjects)
          (pollModeration e (jobsOf v.detectedObjects)
            (pollFace e (jobsOf v.detectedObjects)
              ⟨{ StagedResults.init with labels := some L }, true, [], []⟩)) =
          Except.error m2 := by
        unfold pollTranscribe
        rw [hz, hTr]
      unfold analyzeStep
      rw [hphase, hstep]
      right
      by_cases hg : escapesFailureHandler m2 = true
      · simp [analyzeFinish, hg, progressValues]
      · simp [analyzeFinish, hg, progressValues]
  | otherStatus s =>
    have hphase := pollPhase_eval_other e (jobsOf v.detectedObjects) w s hw hL
    have hems3 : (pollModeration e (jobsOf v.detectedObjects)
        (pollFace e (jobsOf v.detectedObjects)
          ⟨StagedResults.init, false, [], []⟩)).emissions = [] := by
      rw [(pollModeration_preserves e _ _).2.2.2.2.2.2.2,
          (pollFace_preserves e _ _).2.2.2.2.2.2]
    have hflag3 : (pollModeration e (jobsOf v.detectedObjects)
        (pollFace e (jobsOf v.detectedObjects)
          ⟨StagedResults.init, false, [], []⟩)).allComplete = false := by
      rw [pollModeration_flag e _ _ y hy, pollFace_flag e _ _ x hx]
      simp
    cases hTr : e.transcribePoll with
    | completed t =>
      by_cases ht : t = ""
      · have hstep : pollTranscribe e (jobsOf v.detectedObjects)
            (pollModeration e (jobsOf v.detectedObjects)
              (pollFace e (jobsOf v.detectedObjects)
                ⟨StagedResults.init, false, [], []⟩)) =
            Except.ok { (pollModeration e (jobsOf v.detectedObjects)
                (pollFace e (jobsOf v.detectedObjects)
                  ⟨StagedResults.init, false, [], []⟩)) with
              staged := { (pollModeration e (jobsOf v.detectedObjects)
                  (pollFace e (jobsOf v.detectedObjects)
                    ⟨StagedResults.init, false, [], []⟩)).staged with
                transcript := some t } } := by
          unfold pollTranscribe
          rw [hz, hTr]
          simp [ht]
        unfold analyzeStep
        rw [hphase, hstep]
        by_cases hr : r < 10
        · left
          simp [analyzeFinish, hflag3, hr, escapes_retryControl, hems3,
            progressValues]
        · right
          simp [analyzeFinish, hflag3, hr, escapes_maxRetries, hems3,
            progressValues]
      · exfalso
        have he85 : envEmits85 e = true := by
          unfold envEmits85
          rw [hL, hTr]
          simp [ht]
        have hac := h85 he85
        unfold envAllComplete at hac
        rw [hL] at hac
        simp at hac
    | otherStatus s2 =>
      have hstep : pollTranscribe e (jobsOf v.detectedObjects)
          (pollModeration e (jobsOf v.detectedObjects)
            (pollFace e (jobsOf v.detectedObjects)
              ⟨StagedResults.init, false, [], []⟩)) =
          Except.ok { (pollModeration e (jobsOf v.detectedObjects)
              (pollFace e (jobsOf v.detectedObjects)
                ⟨StagedResults.init, false, [], []⟩)) with
            allComplete := false } := by
        unfold pollTranscribe
        rw [hz, hTr]
      unfold analyzeStep
      rw [hphase, hstep]
      by_cases hr : r < 10
      · left
        simp [analyzeFinish, hr, escapes_retryControl, hems3, progressValues]
      · right
        simp [analyzeFinish, hr, escapes_maxRetries, hems3, progressValues]
    | serviceError m2 =>
      have hstep : pollTranscribe e (jobsOf v.detectedObjects)
          (pollModeration e (jobsOf v.detectedObjects)
            (pollFace e (jobsOf v.detectedObjects)
              ⟨StagedResults.init, false, [], []⟩)) =
          Except.error m2 := by
        unfold pollTranscribe
        rw [hz, hTr]
      unfold analyzeStep
      rw [hphase, hstep]
      right
      by_cases hg : escapesFailureHandler m2 = true
      · simp [analyzeFinish, hg, progressValues]
      · simp [analyzeFinish, hg, progressValues]

/-- Prepending a smaller head keeps a non-decreasing chain. -/
theorem chain_le_of_head_le (a b : Nat) (l : List Nat) (hab : b ≤ a)
    (h : List.Chain' (fun p q => p ≤ q) (a :: l)) :
    List.Chain' (fun p q => p ≤ q) (b :: l) := by
  rcases List.chain'_cons'.mp h with ⟨h1, h2⟩
  exact List.chain'_cons'.mpr ⟨fun y hy => le_trans hab (h1 y hy), h2⟩

/-- Under the 85-implies-complete assumption, the progress values of a
re-check chain, prefixed with 75, are non-decreasing. -/
theorem analyzeRun_chain (envs : List AnalyzeEnv) (r : Nat) (v : VideoRecord)
    (w x y z : String)
    (hj : v.detectedObjects = StoredObjects.jobs ⟨some w, some x, some y, some z⟩)
    (h : ∀ e ∈ envs, envEmits85 e = true → envAllComplete e = true) :
    List.Chain' (fun p q => p ≤ q)
      (75 :: progressValues (analyzeRun envs r v).2) := by
  induction envs generalizing r with
  | nil => simp [analyzeRun, progressValues]
  | cons e rest ih =>
    rcases analyzeStep_classify e r v w x y z hj
        (h e (List.mem_cons_self e rest)) with
      ⟨ho, hrec, hpv⟩ | ⟨ho, hpv⟩
    · have hrun : (analyzeRun (e :: rest) r v).2 =
          (analyzeStep e r v).emissions ++ (analyzeRun rest (r + 1) v).2 := by
        simp only [analyzeRun]
        rw [ho, hrec]
      rw [hrun]
      unfold progressValues
      rw [List.filterMap_append]
      have hih := ih (r + 1) (fun e2 he2 => h e2 (List.mem_cons_of_mem e he2))
      have hpv2 : (analyzeStep e r v).emissions.filterMap (fun em => em.progress) =
          [75] := hpv
      rw [hpv2]
      exact List.chain'_cons.mpr ⟨le_refl 75, hih⟩
    · have hrun : (analyzeRun (e :: rest) r v).2 = (analyzeStep e r v).emissions := by
        unfold analyzeRun
        cases hoc : (analyzeStep e r v).outcome with
        | ok => rfl
        | retryScheduled => exact absurd hoc ho
        | maxRetriesExceeded => rfl
        | taskFailed m => rfl
      rw [hrun]
      rcases hpv with h1 | h1 | h1 | h1 <;>
        rw [h1] <;>
        simp [List.chain'_cons, List.chain'_singleton]

/-- C6 counterexample: when transcription completes on a re-check while the
Rekognition jobs are still running, that re-check emits 85 (transcript
analysis) and then 75 (still in progress), and the next re-check emits 85
again: the emitted progress sequence is
10, 25, 35, 45, 55, 65, 85, 75, 85, 95, 100 — not monotonically
non-decreasing. -/
theorem c6_progress_not_monotone :
    progressValues (fullRun submitOk [envTranscribeFirst, envAllDone] freshRecord).2 =
      [10, 25, 35, 45, 55, 65, 85, 75, 85, 95, 100] ∧
    ¬ List.Chain' (fun p q => p ≤ q)
      (progressValues (fullRun submitOk [envTranscribeFirst, envAllDone] freshRecord).2) := by
  have hpv : progressValues
      (fullRun submitOk [envTranscribeFirst, envAllDone] freshRecord).2 =
      [10, 25, 35, 45, 55, 65, 85, 75, 85, 95, 100] := by decide
  refine ⟨hpv, ?_⟩
  rw [hpv]
  simp only [List.chain'_cons, List.chain'_singleton]
  omega

/-- C6 amended: the progress values of one video's run are monotonically
non-decreasing through the sequence 10, 25, 35, 45, 55, 65, 75, 85, 95, 100
*provided* every re-check that emits the 85% transcript-analysis
notification also finds all jobs complete on that same re-check (i.e.
transcription never completes strictly before the Rekognition jobs); a
re-check that stages the transcript while another job is still pending
emits 85 followed by 75 (`c6_progress_not_monotone`). -/
theorem c6_progress_monotone_under_assumption (se : SubmitEnv)
    (envs : List AnalyzeEnv) (v : VideoRecord)
    (h : ∀ e ∈ envs, envEmits85 e = true → envAllComplete e = true) :
    List.Chain' (fun p q => p ≤ q) (progressValues (fullRun se envs v).2) := by
  unfold fullRun processStep
  cases hl : se.labelJob with
  | error m =>
    simp [processFail, progressValues, List.chain'_singleton]
  | ok h1 =>
    cases hf : se.faceJob with
    | error m =>
      simp [processFail, progressValues, List.chain'_cons, List.chain'_singleton]
    | ok h2 =>
      cases hm : se.moderationJob with
      | error m =>
        simp [processFail, progressValues, List.chain'_cons, List.chain'_singleton]
      | ok h3 =>
        cases ht : se.transcribeJob with
        | error m =>
          simp [processFail, progressValues, List.chain'_cons, List.chain'_singleton]
        | ok h4 =>
          have hch := analyzeRun_chain envs 0
            { v with
              status := Status.processing
              processingStartedAt := some se.now
              detectedObjects :=
                StoredObjects.jobs ⟨some h1, some h2, some h3, some h4⟩ }
            h1 h2 h3 h4 rfl h
          dsimp only
          rw [if_pos rfl]
          unfold progressValues
          rw [List.filterMap_append]

          refine List.chain'_append.mpr ⟨?_, ?_, ?_⟩
          · simp [List.chain'_cons, List.chain'_singleton]
          · exact (List.chain'_cons'.mp hch).2
          · intro p hp q hq
            have h75 : 75 ≤ q := (List.chain'_cons'.mp hch).1 q hq
            simp only [List.filterMap] at hp
            have hp65 : 65 = p := by
              simpa using hp
            omega

/-- Witness for `c6_progress_monotone_under_assumption`: a run whose single
re-check completes everything satisfies the assumption and its progress
values are non-decreasing. -/
theorem c6_progress_monotone_under_assumption_witness :
    (∀ e ∈ [envAllDone], envEmits85 e = true → envAllComplete e = true) ∧
    List.Chain' (fun p q => p ≤ q)
      (progressValues (fullRun submitOk [envAllDone] freshRecord).2) :=
  ⟨by decide,
   c6_progress_monotone_under_assumption submitOk [envAllDone] freshRecord
     (by decide)⟩

end VideoGallery
